import Mathlib

/-
Verification of the Roof Geometry & Estimation Engine
(src/tools/roofing_analysis_engine.py).

The Python source computes over IEEE floats; we embed its arithmetic over an
exact linear ordered field (ℚ for the purely rational pipeline, ℝ where the
source calls `math.tan` / `math.cos` / `math.sqrt`).  Python's built-in
`round` (round-half-to-even, returning an integer) is modelled by `pyRound`,
and the float modulo operator by `pymod`.
-/

set_option maxHeartbeats 1000000
set_option linter.unusedSectionVars false

namespace RoofReport

/-- Python `round`: round to the nearest integer, ties to the even integer. -/
def pyRound {α : Type} [LinearOrderedField α] [FloorRing α] (x : α) : ℤ :=
  if Int.fract x < 1 / 2 then ⌊x⌋
  else if 1 / 2 < Int.fract x then ⌊x⌋ + 1
  else if Even ⌊x⌋ then ⌊x⌋ else ⌊x⌋ + 1

/-- Python `%` on reals: `x - m * floor (x / m)`. -/
def pymod {α : Type} [LinearOrderedField α] [FloorRing α] (x m : α) : α :=
  x - m * ⌊x / m⌋

variable {α : Type} [LinearOrderedField α] [FloorRing α]

lemma pyRound_intCast (n : ℤ) : pyRound (n : α) = n := by
  unfold pyRound
  rw [Int.fract_intCast]
  rw [if_pos (by norm_num : (0 : α) < 1 / 2)]
  exact Int.floor_intCast n

lemma pyRound_eq_floor_or_ceil (x : α) :
    pyRound x = ⌊x⌋ ∨ pyRound x = ⌊x⌋ + 1 := by
  unfold pyRound
  split
  · exact Or.inl rfl
  split
  · exact Or.inr rfl
  split
  · exact Or.inl rfl
  · exact Or.inr rfl

lemma le_pyRound (x : α) : x - 1 / 2 ≤ (pyRound x : α) := by
  have hfl := Int.floor_le x
  have hfr : Int.fract x = x - ⌊x⌋ := rfl
  rcases pyRound_eq_floor_or_ceil x with h | h <;> rw [h]
  · unfold pyRound at h
    by_cases h1 : Int.fract x < 1 / 2
    · rw [hfr] at h1; linarith
    · rw [if_neg h1] at h
      by_cases h2 : 1 / 2 < Int.fract x
      · rw [if_pos h2] at h
        omega
      · have h3 : Int.fract x = 1 / 2 := le_antisymm (not_lt.1 h2) (not_lt.1 h1)
        rw [hfr] at h3; linarith
  · push_cast
    have := Int.lt_floor_add_one x
    linarith

lemma pyRound_le (x : α) : (pyRound x : α) ≤ x + 1 / 2 := by
  have hfl := Int.floor_le x
  have hfr : Int.fract x = x - ⌊x⌋ := rfl
  rcases pyRound_eq_floor_or_ceil x with h | h <;> rw [h]
  · linarith
  · unfold pyRound at h
    by_cases h1 : Int.fract x < 1 / 2
    · rw [if_pos h1] at h; omega
    · rw [if_neg h1] at h
      have h4 : 1 / 2 ≤ Int.fract x := not_lt.1 h1
      rw [hfr] at h4; push_cast; linarith

lemma pyRound_nonneg {x : α} (h : 0 ≤ x) : 0 ≤ pyRound x := by
  have h0 : (0 : ℤ) ≤ ⌊x⌋ := Int.floor_nonneg.2 h
  rcases pyRound_eq_floor_or_ceil x with h1 | h1 <;> omega

lemma pyRound_eq_of_mem {x : α} {n : ℤ} (h1 : (n : α) - 1 / 2 < x)
    (h2 : x < (n : α) + 1 / 2) : pyRound x = n := by
  have hn1 : (n : ℤ) - 1 ≤ ⌊x⌋ := by
    have : ((n - 1 : ℤ) : α) ≤ x := by push_cast; linarith
    exact Int.le_floor.2 this
  have hn2 : ⌊x⌋ ≤ n := by
    have : x < ((n + 1 : ℤ) : α) := by push_cast; linarith
    have := Int.floor_lt.2 this
    omega
  have hfr : Int.fract x = x - ⌊x⌋ := rfl
  rcases eq_or_lt_of_le hn2 with hfn | hfn
  · -- ⌊x⌋ = n, fractional part below one half
    have hlt : Int.fract x < 1 / 2 := by
      rw [hfr, hfn]; linarith
    unfold pyRound
    rw [if_pos hlt, hfn]
  · -- ⌊x⌋ = n - 1, fractional part above one half
    have hfn2 : ⌊x⌋ = n - 1 := by omega
    have hgt : 1 / 2 < Int.fract x := by
      rw [hfr, hfn2]; push_cast; linarith
    unfold pyRound
    rw [if_neg (by linarith), if_pos hgt, hfn2]
    omega

lemma floor_le_pyRound (x : α) : ⌊x⌋ ≤ pyRound x := by
  rcases pyRound_eq_floor_or_ceil x with h | h <;> omega

lemma pyRound_le_floor_add_one (x : α) : pyRound x ≤ ⌊x⌋ + 1 := by
  rcases pyRound_eq_floor_or_ceil x with h | h <;> omega

lemma pyRound_eq_floor_of_lt_half {x : α} (h : Int.fract x < 1 / 2) :
    pyRound x = ⌊x⌋ := by
  unfold pyRound
  rw [if_pos h]

lemma pyRound_eq_add_one_of_half_lt {x : α} (h : 1 / 2 < Int.fract x) :
    pyRound x = ⌊x⌋ + 1 := by
  unfold pyRound
  rw [if_neg (by linarith), if_pos h]

lemma pyRound_eq_add_one_of_half_odd {x : α} (h : Int.fract x = 1 / 2)
    (ho : ¬Even ⌊x⌋) : pyRound x = ⌊x⌋ + 1 := by
  unfold pyRound
  rw [if_neg (by rw [h]; exact lt_irrefl _), if_neg (by rw [h]; exact lt_irrefl _),
    if_neg ho]

lemma pyRound_mono {x y : α} (h : x ≤ y) : pyRound x ≤ pyRound y := by
  have hfx : Int.fract x = x - ⌊x⌋ := rfl
  have hfy : Int.fract y = y - ⌊y⌋ := rfl
  have hfl : ⌊x⌋ ≤ ⌊y⌋ := Int.floor_le_floor h
  rcases eq_or_lt_of_le hfl with hfe | hflt
  · -- same floor: compare fractional parts
    have hfr : Int.fract x ≤ Int.fract y := by
      rw [hfx, hfy, ← hfe]; linarith
    by_cases h1 : Int.fract x < 1 / 2
    · rw [pyRound_eq_floor_of_lt_half h1, hfe]
      exact floor_le_pyRound y
    · by_cases h2 : 1 / 2 < Int.fract x
      · have h3 : 1 / 2 < Int.fract y := lt_of_lt_of_le h2 hfr
        rw [pyRound_eq_add_one_of_half_lt h2, pyRound_eq_add_one_of_half_lt h3, hfe]
      · have h4 : Int.fract x = 1 / 2 := le_antisymm (not_lt.1 h2) (not_lt.1 h1)
        by_cases ho : Even ⌊x⌋
        · have : pyRound x = ⌊x⌋ := by
            unfold pyRound
            rw [if_neg h1, if_neg h2, if_pos ho]
          rw [this, hfe]
          exact floor_le_pyRound y
        · rw [pyRound_eq_add_one_of_half_odd h4 ho]
          by_cases h5 : 1 / 2 < Int.fract y
          · rw [pyRound_eq_add_one_of_half_lt h5, hfe]
          · have h6 : Int.fract y = 1 / 2 := by
              have h7 : 1 / 2 ≤ Int.fract y := le_trans (le_of_eq h4.symm) hfr
              exact le_antisymm (not_lt.1 h5) h7
            have ho2 : ¬Even ⌊y⌋ := by rw [← hfe]; exact ho
            rw [pyRound_eq_add_one_of_half_odd h6 ho2, hfe]
  · -- floors differ by at least one
    have h1 := pyRound_le_floor_add_one x
    have h2 := floor_le_pyRound y
    omega

lemma pyRound_lt_pyRound {x y : α} (h : x + 1 < y) : pyRound x < pyRound y := by
  have h1 : (pyRound x : α) < (pyRound y : α) := by
    have := pyRound_le x
    have := le_pyRound y
    linarith
  exact_mod_cast h1

lemma pymod_eq_fract {x m : α} (hm : m ≠ 0) :
    pymod x m = m * Int.fract (x / m) := by
  unfold pymod
  rw [Int.fract]
  field_simp

lemma pymod_nonneg {x m : α} (hm : 0 < m) : 0 ≤ pymod x m := by
  rw [pymod_eq_fract (ne_of_gt hm)]
  exact mul_nonneg (le_of_lt hm) (Int.fract_nonneg _)

lemma pymod_lt {x m : α} (hm : 0 < m) : pymod x m < m := by
  rw [pymod_eq_fract (ne_of_gt hm)]
  have := Int.fract_lt_one (x / m)
  calc m * Int.fract (x / m) < m * 1 := by
        exact (mul_lt_mul_left hm).2 this
    _ = m := mul_one m

lemma pyRound_pos_of_half_lt {x : α} (h : 1 / 2 < x) : 0 < pyRound x := by
  have h1 : (0 : α) < (pyRound x : α) := by
    have := le_pyRound x
    linarith
  exact_mod_cast h1

lemma pymod_idem {x m : α} (hm : 0 < m) : pymod (pymod x m) m = pymod x m := by
  have h0 : 0 ≤ pymod x m := pymod_nonneg hm
  have h1 : pymod x m < m := pymod_lt hm
  unfold pymod
  have hfl : ⌊(x - m * ⌊x / m⌋) / m⌋ = 0 := by
    rw [Int.floor_eq_zero_iff]
    constructor
    · exact div_nonneg h0 (le_of_lt hm)
    · rw [div_lt_one hm]; exact h1
  rw [hfl]
  push_cast
  ring

/-! ### Data classes (from the `@dataclass` definitions in the source) -/

/-- A single roof plane/face with 3D measurements. -/
structure RoofSegment (α : Type) where
  name : String
  footprint_area_sqft : α
  true_area_sqft : α
  true_area_sqm : α
  pitch_degrees : α
  pitch_ratio : String
  azimuth_degrees : α
  azimuth_direction : String
  plane_height_meters : Option α
deriving DecidableEq

/-- A 3D linear measurement of a roof edge. -/
structure EdgeMeasurement (α : Type) where
  edge_type : String
  label : String
  plan_length_ft : α
  true_length_ft : α
  pitch_factor : α
  adjacent_segments : Option (List ℕ)
deriving DecidableEq

/-- A single line item on the Bill of Materials. -/
structure MaterialLineItem (α : Type) where
  category : String
  description : String
  unit : String
  net_quantity : α
  waste_pct : α
  gross_quantity : α
  order_quantity : α
  order_unit : String
  unit_price_cad : α
  line_total_cad : α
deriving DecidableEq

/-- Complete Bill of Materials for a roofing job. -/
structure MaterialEstimate (α : Type) where
  net_area_sqft : α
  waste_pct : α
  gross_area_sqft : α
  gross_squares : α
  bundle_count : ℤ
  line_items : List (MaterialLineItem α)
  total_material_cost_cad : α
  complexity_factor : α
  complexity_class : String
  shingle_type : String
deriving DecidableEq

/-- RAS material recovery analysis for a single segment. -/
structure RASSegmentYield (α : Type) where
  segment_name : String
  pitch_degrees : α
  pitch_ratio : String
  area_sqft : α
  recovery_class : String
  binder_oil_gallons : α
  granules_lbs : α
  fiber_lbs : α
deriving DecidableEq

/-- The fixed-key `slope_distribution` dictionary of the RAS analysis. -/
structure SlopeDistribution (α : Type) where
  low_pitch_pct : α
  medium_pitch_pct : α
  high_pitch_pct : α
deriving DecidableEq

/-- Complete RAS yield analysis for the entire roof. -/
structure RASYieldAnalysis (α : Type) where
  total_area_sqft : α
  total_squares : α
  estimated_weight_lbs : α
  segments : List (RASSegmentYield α)
  total_binder_oil_gallons : α
  total_granules_lbs : α
  total_fiber_lbs : α
  total_recoverable_lbs : α
  recovery_rate_pct : α
  market_value_oil_cad : α
  market_value_granules_cad : α
  market_value_fiber_cad : α
  market_value_total_cad : α
  processing_recommendation : String
  slope_distribution : SlopeDistribution α
deriving DecidableEq

/-- Aggregated edge totals. -/
structure EdgeSummary (α : Type) where
  total_ridge_ft : α
  total_hip_ft : α
  total_valley_ft : α
  total_eave_ft : α
  total_rake_ft : α
  total_linear_ft : α
deriving DecidableEq

/-! ### Constants -/

/-- Waste factors for the comparison table (`WASTE_FACTORS`). -/
def WASTE_FACTORS {α : Type} [LinearOrderedField α] : List (ℕ × α × String) :=
  [(5, 1.05, "Minimal waste (simple gable)"),
   (10, 1.10, "Standard waste (moderate complexity)"),
   (15, 1.15, "Above average (hips/valleys)"),
   (20, 1.20, "High waste (complex/cut-up roof)")]

/-- Alberta material pricing dictionary (`PRICING`), CAD. -/
def PRICING {α : Type} [LinearOrderedField α] (key : String) : α :=
  if key = "architectural_bundle" then 42.00
  else if key = "3tab_bundle" then 32.00
  else if key = "underlayment_roll" then 85.00
  else if key = "ice_shield_roll" then 125.00
  else if key = "starter_bundle" then 35.00
  else if key = "ridge_cap_bundle" then 55.00
  else if key = "drip_edge_piece" then 8.50
  else if key = "valley_flashing_piece" then 22.00
  else if key = "nail_box_30lb" then 65.00
  else if key = "ridge_vent_piece" then 18.00
  else 0

/-! ### Geometry helpers -/

/-- The 16-point compass rose used by `degrees_to_cardinal`. -/
def cardinal_dirs : List String :=
  ["N", "NNE", "NE", "ENE", "E", "ESE", "SE", "SSE",
   "S", "SSW", "SW", "WSW", "W", "WNW", "NW", "NNW"]

/-- `degrees_to_cardinal`: convert compass degrees to a 16-point cardinal
direction. `index = round(((deg % 360) + 360) % 360 / 22.5) % 16`. -/
def degrees_to_cardinal (deg : α) : String :=
  let index : ℤ := pyRound (pymod (pymod deg 360 + 360) 360 / 22.5) % 16
  cardinal_dirs.getD index.toNat "N"

/-- `math.radians`: degrees to radians. -/
noncomputable def radians (d : ℝ) : ℝ := d * Real.pi / 180

/-- Python `repr` of the one-decimal float `n / 10` (for `n ≥ 0`), e.g.
`80 ↦ "8.0"`, `67 ↦ "6.7"`: the f-string in `pitch_to_ratio` prints the float
`round(rise * 10) / 10`, which always carries a decimal digit. -/
def fmtTenths (n : ℤ) : String := toString (n / 10) ++ "." ++ toString (n % 10)

/-- `pitch_to_ratio`: convert pitch degrees to contractor X:12 format; the
displayed rise is `12 * tan(radians(degrees))` rounded to one decimal. -/
noncomputable def pitch_to_ratio (degrees : ℝ) : String :=
  if degrees ≤ 0 ∨ 90 ≤ degrees then "0:12"
  else fmtTenths (pyRound (12 * Real.tan (radians degrees) * 10)) ++ ":12"

/-- `true_area_from_footprint`: true 3D surface area from plan-view footprint,
`footprint / cos(pitch)` with degenerate-pitch and non-positive-cosine guards. -/
noncomputable def true_area_from_footprint (footprint_sqft pitch_degrees : ℝ) : ℝ :=
  if pitch_degrees ≤ 0 ∨ 90 ≤ pitch_degrees then footprint_sqft
  else if Real.cos (radians pitch_degrees) ≤ 0 then footprint_sqft
  else footprint_sqft / Real.cos (radians pitch_degrees)

/-- `hip_valley_factor`: 3D length factor for hip/valley edges,
`sqrt(2*rise^2 + 288) / (12*sqrt(2))` with `rise = 12*tan(pitch)`. -/
noncomputable def hip_valley_factor (pitch_degrees : ℝ) : ℝ :=
  Real.sqrt (2 * (12 * Real.tan (radians pitch_degrees)) *
      (12 * Real.tan (radians pitch_degrees)) + 288) /
    (12 * Real.sqrt 2)

/-- `rake_factor`: 3D length factor for rake edges, `1 / cos(pitch)` with a
degenerate-pitch guard returning `1.0`. -/
noncomputable def rake_factor (pitch_degrees : ℝ) : ℝ :=
  if pitch_degrees ≤ 0 ∨ 90 ≤ pitch_degrees then 1
  else 1 / Real.cos (radians pitch_degrees)

/-! ### Complexity classification -/

/-- The additive score computed inside `classify_complexity`. -/
def complexity_score (segment_count hip_count valley_count : ℕ)
    (pitch_variation : α) : ℕ :=
  (if segment_count ≤ 2 then 0
   else if segment_count ≤ 4 then 1
   else if segment_count ≤ 6 then 2
   else 3) +
  min hip_count 4 +
  min (valley_count * 2) 6 +
  (if 10 < pitch_variation then 2
   else if 5 < pitch_variation then 1
   else 0)

/-- `classify_complexity`: returns `(complexity_factor, complexity_class)`. -/
def classify_complexity (segment_count hip_count valley_count : ℕ)
    (pitch_variation : α) : α × String :=
  let score := complexity_score segment_count hip_count valley_count pitch_variation
  if score ≤ 2 then (1.0, "simple")
  else if score ≤ 5 then (1.05, "moderate")
  else if score ≤ 8 then (1.10, "complex")
  else (1.15, "very_complex")

/-- The `waste_map` dictionary of `compute_material_estimate`
(`.get(complexity_class, 10)`). -/
def waste_map (complexity_class : String) : α :=
  if complexity_class = "simple" then 10
  else if complexity_class = "moderate" then 12
  else if complexity_class = "complex" then 14
  else if complexity_class = "very_complex" then 15
  else 10

/-! ### Edge generation engine -/

/-- `generate_edges`: derive roof edges from segment data using geometric
estimation (1.5:1 plan aspect ratio, averaged pitch, topology branching on
the segment count). Lengths are rounded to whole feet at output; pitch
factors are rounded to three decimals, but true lengths use the
full-precision factor. -/
noncomputable def generate_edges (segments : List (RoofSegment ℝ))
    (total_footprint_sqft : ℝ) : List (EdgeMeasurement ℝ) :=
  if segments = [] then []
  else
    let building_width_ft := Real.sqrt (total_footprint_sqft / 1.5)
    let building_length_ft := building_width_ft * 1.5
    let avg_pitch := (segments.map (fun s => s.pitch_degrees)).sum / segments.length
    let n := segments.length
    let main_ridge_plan_ft := building_length_ft * 0.85
    let ridges : List (EdgeMeasurement ℝ) :=
      [{ edge_type := "ridge", label := "Main Ridge Line",
         plan_length_ft := (pyRound main_ridge_plan_ft : ℝ),
         true_length_ft := (pyRound main_ridge_plan_ft : ℝ),
         pitch_factor := 1,
         adjacent_segments := some [0, 1] }] ++
      (if 4 ≤ n then
        [{ edge_type := "ridge", label := "Wing Ridge Line",
           plan_length_ft := (pyRound (building_width_ft * 0.5) : ℝ),
           true_length_ft := (pyRound (building_width_ft * 0.5) : ℝ),
           pitch_factor := 1,
           adjacent_segments := some [2, 3] }]
       else [])
    let hips : List (EdgeMeasurement ℝ) :=
      if 4 ≤ n then
        let hip_plan_ft := building_width_ft / 2 * Real.sqrt 2
        let hv_factor := hip_valley_factor avg_pitch
        let hip_true_ft := hip_plan_ft * hv_factor
        ["NE Hip", "NW Hip", "SE Hip", "SW Hip"].map (fun label =>
          { edge_type := "hip", label := label,
            plan_length_ft := (pyRound hip_plan_ft : ℝ),
            true_length_ft := (pyRound hip_true_ft : ℝ),
            pitch_factor := (pyRound (hv_factor * 1000) : ℝ) / 1000,
            adjacent_segments := none })
      else []
    let valleys : List (EdgeMeasurement ℝ) :=
      if 4 ≤ n then
        let valley_plan_ft := building_width_ft * 0.35
        let vf := hip_valley_factor avg_pitch
        let valley_true_ft := valley_plan_ft * vf
        ["East Valley", "West Valley"].map (fun label =>
          { edge_type := "valley", label := label,
            plan_length_ft := (pyRound valley_plan_ft : ℝ),
            true_length_ft := (pyRound valley_true_ft : ℝ),
            pitch_factor := (pyRound (vf * 1000) : ℝ) / 1000,
            adjacent_segments := none })
      else []
    let eave_sections : List (String × ℝ) :=
      if 4 ≤ n then
        [("South Eave", building_length_ft * 0.9),
         ("North Eave", building_length_ft * 0.9),
         ("East Eave", building_width_ft * 0.4),
         ("West Eave", building_width_ft * 0.4)]
      else
        [("South Eave", building_length_ft * 0.95),
         ("North Eave", building_length_ft * 0.95)]
    let eaves : List (EdgeMeasurement ℝ) :=
      eave_sections.map (fun p =>
        { edge_type := "eave", label := p.1,
          plan_length_ft := (pyRound p.2 : ℝ),
          true_length_ft := (pyRound p.2 : ℝ),
          pitch_factor := 1,
          adjacent_segments := none })
    let rakes : List (EdgeMeasurement ℝ) :=
      if n ≤ 3 then
        let rake_plan_ft := building_width_ft / 2
        let rf := rake_factor avg_pitch
        let rake_true_ft := rake_plan_ft * rf
        ["East Rake (Left)", "East Rake (Right)",
         "West Rake (Left)", "West Rake (Right)"].map (fun label =>
          { edge_type := "rake", label := label,
            plan_length_ft := (pyRound rake_plan_ft : ℝ),
            true_length_ft := (pyRound rake_true_ft : ℝ),
            pitch_factor := (pyRound (rf * 1000) : ℝ) / 1000,
            adjacent_segments := none })
      else []
    ridges ++ hips ++ valleys ++ eaves ++ rakes

/-- Per-type accumulation of `true_length_ft`, as done by the if/elif chain
of `compute_edge_summary` and by the per-type sums of
`compute_material_estimate`. -/
def edge_type_total (edges : List (EdgeMeasurement α)) (t : String) : α :=
  ((edges.filter (fun e => e.edge_type = t)).map (fun e => e.true_length_ft)).sum

/-- `compute_edge_summary`: aggregate edge measurements by type; each
per-type total is rounded, then the grand total is the (rounded) sum of the
already-rounded per-type totals. -/
def compute_edge_summary (edges : List (EdgeMeasurement α)) : EdgeSummary α :=
  let tr : α := (pyRound (edge_type_total edges "ridge") : α)
  let th : α := (pyRound (edge_type_total edges "hip") : α)
  let tv : α := (pyRound (edge_type_total edges "valley") : α)
  let te : α := (pyRound (edge_type_total edges "eave") : α)
  let tk : α := (pyRound (edge_type_total edges "rake") : α)
  { total_ridge_ft := tr, total_hip_ft := th, total_valley_ft := tv,
    total_eave_ft := te, total_rake_ft := tk,
    total_linear_ft := (pyRound (tr + th + tv + te + tk) : α) }

/-! ### Material estimate (Bill of Materials) -/

/-- `compute_material_estimate`: the complete Bill of Materials.  Mirrors the
source line by line: complexity classification, waste-derived gross area,
nine line items (valley flashing and ridge vent conditional), and a total
cost summed over the emitted line items. -/
def compute_material_estimate (true_area_sqft : α)
    (edges : List (EdgeMeasurement α)) (segments : List (RoofSegment α))
    (shingle_type : String) : MaterialEstimate α :=
  let hip_count := (edges.filter (fun e => e.edge_type = "hip")).length
  let valley_count := (edges.filter (fun e => e.edge_type = "valley")).length
  let pitch_variation : α :=
    match segments.map (fun s => s.pitch_degrees) with
    | [] => 0
    | p :: ps => ps.foldl max p - ps.foldl min p
  let cc := classify_complexity segments.length hip_count valley_count pitch_variation
  let base_waste : α := waste_map cc.2
  let net_area := true_area_sqft
  let gross_area := net_area * (1 + base_waste / 100)
  let gross_squares : α := (⌈gross_area / 100 * 10⌉ : α) / 10
  let bundle_count : ℤ := ⌈gross_squares * 3⌉
  let total_ridge_ft := edge_type_total edges "ridge"
  let total_hip_ft := edge_type_total edges "hip"
  let total_valley_ft := edge_type_total edges "valley"
  let total_eave_ft := edge_type_total edges "eave"
  let total_rake_ft := edge_type_total edges "rake"
  let price_per_bundle : α :=
    if shingle_type = "architectural" then PRICING "architectural_bundle"
    else PRICING "3tab_bundle"
  let item_shingles : MaterialLineItem α :=
    { category := "shingles",
      description := if shingle_type = "architectural"
        then "Architectural (Laminate) Shingles" else "3-Tab Standard Shingles",
      unit := "squares",
      net_quantity := (pyRound (net_area / 100 * 10) : α) / 10,
      waste_pct := base_waste,
      gross_quantity := gross_squares,
      order_quantity := (bundle_count : α),
      order_unit := "bundles",
      unit_price_cad := price_per_bundle,
      line_total_cad := (pyRound ((bundle_count : α) * price_per_bundle * 100) : α) / 100 }
  let underlayment_rolls : ℤ := ⌈gross_area / 1000⌉
  let item_underlayment : MaterialLineItem α :=
    { category := "underlayment", description := "Synthetic Underlayment",
      unit := "rolls",
      net_quantity := (⌈net_area / 1000⌉ : ℤ),
      waste_pct := 10,
      gross_quantity := (underlayment_rolls : α),
      order_quantity := (underlayment_rolls : α),
      order_unit := "rolls",
      unit_price_cad := PRICING "underlayment_roll",
      line_total_cad :=
        (pyRound ((underlayment_rolls : α) * PRICING "underlayment_roll" * 100) : α) / 100 }
  let ice_shield_sqft := (total_eave_ft + total_valley_ft) * 3
  let ice_shield_rolls : ℤ := ⌈ice_shield_sqft / 75⌉
  let item_ice_shield : MaterialLineItem α :=
    { category := "ice_shield", description := "Ice & Water Shield Membrane",
      unit := "rolls",
      net_quantity := (⌈ice_shield_sqft / 75⌉ : ℤ),
      waste_pct := 5,
      gross_quantity := (ice_shield_rolls : α),
      order_quantity := (ice_shield_rolls : α),
      order_unit := "rolls",
      unit_price_cad := PRICING "ice_shield_roll",
      line_total_cad :=
        (pyRound ((ice_shield_rolls : α) * PRICING "ice_shield_roll" * 100) : α) / 100 }
  let starter_linear_ft := total_eave_ft + total_rake_ft
  let starter_bundles : ℤ := ⌈starter_linear_ft / 105⌉
  let item_starter : MaterialLineItem α :=
    { category := "starter_strip", description := "Starter Strip Shingles",
      unit := "linear_ft",
      net_quantity := (pyRound starter_linear_ft : α),
      waste_pct := 5,
      gross_quantity := (pyRound (starter_linear_ft * 1.05) : α),
      order_quantity := (starter_bundles : α),
      order_unit := "bundles",
      unit_price_cad := PRICING "starter_bundle",
      line_total_cad :=
        (pyRound ((starter_bundles : α) * PRICING "starter_bundle" * 100) : α) / 100 }
  let ridge_hip_linear_ft := total_ridge_ft + total_hip_ft
  let ridge_cap_bundles : ℤ := ⌈ridge_hip_linear_ft / 33⌉
  let item_ridge_cap : MaterialLineItem α :=
    { category := "ridge_cap", description := "Ridge/Hip Cap Shingles",
      unit := "linear_ft",
      net_quantity := (pyRound ridge_hip_linear_ft : α),
      waste_pct := 5,
      gross_quantity := (pyRound (ridge_hip_linear_ft * 1.05) : α),
      order_quantity := (ridge_cap_bundles : α),
      order_unit := "bundles",
      unit_price_cad := PRICING "ridge_cap_bundle",
      line_total_cad :=
        (pyRound ((ridge_cap_bundles : α) * PRICING "ridge_cap_bundle" * 100) : α) / 100 }
  let drip_edge_linear_ft := total_eave_ft + total_rake_ft
  let drip_edge_pieces : ℤ := ⌈drip_edge_linear_ft / 10⌉
  let item_drip_edge : MaterialLineItem α :=
    { category := "drip_edge",
      description := "Aluminum Drip Edge (10 ft sections)",
      unit := "pieces",
      net_quantity := (⌈drip_edge_linear_ft / 10⌉ : ℤ),
      waste_pct := 5,
      gross_quantity := (drip_edge_pieces : α),
      order_quantity := (drip_edge_pieces : α),
      order_unit := "pieces",
      unit_price_cad := PRICING "drip_edge_piece",
      line_total_cad :=
        (pyRound ((drip_edge_pieces : α) * PRICING "drip_edge_piece" * 100) : α) / 100 }
  let valley_items : List (MaterialLineItem α) :=
    if 0 < total_valley_ft then
      let valley_pieces : ℤ := ⌈total_valley_ft / 10⌉
      [{ category := "valley_metal",
         description := "Pre-bent Valley Flashing (W-valley, 10 ft)",
         unit := "pieces",
         net_quantity := (⌈total_valley_ft / 10⌉ : ℤ),
         waste_pct := 10,
         gross_quantity := (valley_pieces : α),
         order_quantity := (valley_pieces : α),
         order_unit := "pieces",
         unit_price_cad := PRICING "valley_flashing_piece",
         line_total_cad :=
           (pyRound ((valley_pieces : α) * PRICING "valley_flashing_piece" * 100) : α) / 100 }]
    else []
  let nail_lbs : ℤ := ⌈gross_squares * 1.5⌉
  let nail_boxes : ℤ := ⌈(nail_lbs : α) / 30⌉
  let item_nails : MaterialLineItem α :=
    { category := "nails",
      description := "1-1/4 in Galvanized Roofing Nails (30 lb box)",
      unit := "lbs",
      net_quantity := (pyRound (gross_squares * 1.5) : α),
      waste_pct := 0,
      gross_quantity := (nail_lbs : α),
      order_quantity := (nail_boxes : α),
      order_unit := "boxes",
      unit_price_cad := PRICING "nail_box_30lb",
      line_total_cad :=
        (pyRound ((nail_boxes : α) * PRICING "nail_box_30lb" * 100) : α) / 100 }
  let vent_items : List (MaterialLineItem α) :=
    if 0 < total_ridge_ft then
      let vent_pieces : ℤ := ⌈total_ridge_ft / 4⌉
      [{ category := "ventilation",
         description := "Ridge Vent (4 ft sections)",
         unit := "pieces",
         net_quantity := (⌈total_ridge_ft / 4⌉ : ℤ),
         waste_pct := 5,
         gross_quantity := (vent_pieces : α),
         order_quantity := (vent_pieces : α),
         order_unit := "pieces",
         unit_price_cad := PRICING "ridge_vent_piece",
         line_total_cad :=
           (pyRound ((vent_pieces : α) * PRICING "ridge_vent_piece" * 100) : α) / 100 }]
    else []
  let line_items : List (MaterialLineItem α) :=
    [item_shingles, item_underlayment, item_ice_shield, item_starter,
     item_ridge_cap, item_drip_edge] ++ valley_items ++ [item_nails] ++ vent_items
  let total_cost : α := (line_items.map (fun it => it.line_total_cad)).sum
  { net_area_sqft := (pyRound net_area : α),
    waste_pct := base_waste,
    gross_area_sqft := (pyRound gross_area : α),
    gross_squares := (pyRound (gross_squares * 10) : α) / 10,
    bundle_count := bundle_count,
    line_items := line_items,
    total_material_cost_cad := (pyRound (total_cost * 100) : α) / 100,
    complexity_factor := cc.1,
    complexity_class := cc.2,
    shingle_type := shingle_type }

/-! ### Waste table -/

/-- One row of the waste comparison table (the source emits a dict per row). -/
structure WasteTableRow (α : Type) where
  waste_pct : ℕ
  factor : α
  description : String
  gross_sqft : α
  squares : α
  bundles : ℤ
deriving DecidableEq

/-- `generate_waste_table`: four fixed waste scenarios over a total area. -/
def generate_waste_table (total_sqft : α) : List (WasteTableRow α) :=
  WASTE_FACTORS.map (fun w =>
    let gross_sqft := total_sqft * w.2.1
    let squares := gross_sqft / 100
    { waste_pct := w.1,
      factor := w.2.1,
      description := w.2.2,
      gross_sqft := (pyRound gross_sqft : α),
      squares := (pyRound (squares * 10) : α) / 10,
      bundles := ⌈squares * 3⌉ })

/-! ### RAS yield analysis -/

/-- The loop body of `compute_ras_yield`: the recovery record for one
segment, given the per-square shingle weight. -/
noncomputable def ras_segment_yield (weight_per_square : ℝ)
    (seg : RoofSegment ℝ) : RASSegmentYield ℝ :=
  let pitch_rise := 12 * Real.tan (radians seg.pitch_degrees)
  let recovery_class :=
    if pitch_rise ≤ 4 then "binder_oil"
    else if 6 < pitch_rise then "granule"
    else "mixed"
  let seg_squares := seg.true_area_sqft / 100
  let seg_weight := seg_squares * weight_per_square
  let binder_rate : ℝ :=
    if recovery_class = "binder_oil" then 0.32
    else if recovery_class = "mixed" then 0.28 else 0.25
  let granule_rate : ℝ :=
    if recovery_class = "granule" then 0.40
    else if recovery_class = "mixed" then 0.36 else 0.33
  let fiber_rate : ℝ :=
    if recovery_class = "binder_oil" then 0.08
    else if recovery_class = "mixed" then 0.07 else 0.06
  let binder_oil_gallons := seg_weight * binder_rate / 8
  { segment_name := seg.name,
    pitch_degrees := seg.pitch_degrees,
    pitch_ratio := seg.pitch_ratio,
    area_sqft := seg.true_area_sqft,
    recovery_class := recovery_class,
    binder_oil_gallons := (pyRound (binder_oil_gallons * 10) : ℝ) / 10,
    granules_lbs := (pyRound (seg_weight * granule_rate) : ℝ),
    fiber_lbs := (pyRound (seg_weight * fiber_rate) : ℝ) }

/-- `compute_ras_yield`: RAS material recovery yield — per-segment slope
classification, class-specific yield rates, aggregation, market valuation,
recommendation and slope distribution. -/
noncomputable def compute_ras_yield (segments : List (RoofSegment ℝ))
    (true_area_sqft : ℝ) (shingle_type : String) : RASYieldAnalysis ℝ :=
  let total_squares := true_area_sqft / 100
  let weight_per_square : ℝ := if shingle_type = "architectural" then 250 else 230
  let total_weight := total_squares * weight_per_square
  let ras_segments : List (RASSegmentYield ℝ) :=
    segments.map (ras_segment_yield weight_per_square)
  let total_oil := (ras_segments.map (fun s => s.binder_oil_gallons)).sum
  let total_granules := (ras_segments.map (fun s => s.granules_lbs)).sum
  let total_fiber := (ras_segments.map (fun s => s.fiber_lbs)).sum
  let total_recoverable := total_oil * 8 + total_granules + total_fiber
  let oil_value := total_oil * 3.50
  let granule_value := total_granules * 0.08
  let fiber_value := total_fiber * 0.12
  let low_pitch_area :=
    ((ras_segments.filter (fun s => s.recovery_class = "binder_oil")).map
      (fun s => s.area_sqft)).sum
  let med_pitch_area :=
    ((ras_segments.filter (fun s => s.recovery_class = "mixed")).map
      (fun s => s.area_sqft)).sum
  let high_pitch_area :=
    ((ras_segments.filter (fun s => s.recovery_class = "granule")).map
      (fun s => s.area_sqft)).sum
  -- `low + med + high or 1`: Python truthiness guard against zero
  let total_area :=
    if low_pitch_area + med_pitch_area + high_pitch_area = 0 then 1
    else low_pitch_area + med_pitch_area + high_pitch_area
  let low_pct := low_pitch_area / total_area * 100
  let high_pct := high_pitch_area / total_area * 100
  let recommendation : String :=
    if 60 < low_pct then
      "Prioritize binder oil extraction - low-pitch dominant roof. Route to Rotto Chopper for optimal oil recovery. Ideal for cold patch and sealant production."
    else if 60 < high_pct then
      "Prioritize granule separation - steep-pitch dominant roof. Run through screener line for clean granule recovery. High-grade output for resale."
    else
      "Mixed recovery stream - process through full RAS line. Extract binder oil first, then screen for granules and fiber. Blend output suitable for cold patch formulation."
  { total_area_sqft := (pyRound true_area_sqft : ℝ),
    total_squares := (pyRound (total_squares * 10) : ℝ) / 10,
    estimated_weight_lbs := (pyRound total_weight : ℝ),
    segments := ras_segments,
    total_binder_oil_gallons := (pyRound (total_oil * 10) : ℝ) / 10,
    total_granules_lbs := (pyRound total_granules : ℝ),
    total_fiber_lbs := (pyRound total_fiber : ℝ),
    total_recoverable_lbs := (pyRound total_recoverable : ℝ),
    recovery_rate_pct :=
      (pyRound ((total_recoverable / (if total_weight = 0 then 1 else total_weight)) * 1000) : ℝ) / 10,
    market_value_oil_cad := (pyRound (oil_value * 100) : ℝ) / 100,
    market_value_granules_cad := (pyRound (granule_value * 100) : ℝ) / 100,
    market_value_fiber_cad := (pyRound (fiber_value * 100) : ℝ) / 100,
    market_value_total_cad :=
      (pyRound ((oil_value + granule_value + fiber_value) * 100) : ℝ) / 100,
    processing_recommendation := recommendation,
    slope_distribution :=
      { low_pitch_pct := (pyRound (low_pct * 10) : ℝ) / 10,
        medium_pitch_pct := (pyRound (med_pitch_area / total_area * 100 * 10) : ℝ) / 10,
        high_pitch_pct := (pyRound (high_pct * 10) : ℝ) / 10 } }

/-! ### Small helper lemmas -/

lemma pyRound_zero : pyRound (0 : α) = 0 := by
  have h : pyRound ((0 : ℤ) : α) = 0 := pyRound_intCast 0
  simpa using h

lemma pymod_add_left (x m : α) (hm : m ≠ 0) : pymod (x + m) m = pymod x m := by
  unfold pymod
  have h1 : (x + m) / m = x / m + 1 := by field_simp
  rw [h1, Int.floor_add_one]
  push_cast
  ring_nf

lemma pymod_eq_self {x m : α} (h0 : 0 ≤ x) (h1 : x < m) : pymod x m = x := by
  have hm : 0 < m := lt_of_le_of_lt h0 h1
  unfold pymod
  have hfl : ⌊x / m⌋ = 0 := by
    rw [Int.floor_eq_zero_iff]
    constructor
    · exact div_nonneg h0 (le_of_lt hm)
    · rw [div_lt_one hm]; exact h1
  rw [hfl]
  simp

/-- The double modulo in `degrees_to_cardinal` collapses to a single one. -/
lemma degrees_to_cardinal_eq (d : α) :
    degrees_to_cardinal d =
      cardinal_dirs.getD (pyRound (pymod d 360 / 22.5) % 16).toNat "N" := by
  unfold degrees_to_cardinal
  rw [pymod_add_left _ _ (by norm_num), pymod_idem (by norm_num : (0 : α) < 360)]

lemma pyRound_tie_even {x : α} {n : ℤ} (hx : x = (n : α) + 1 / 2) (he : Even n) :
    pyRound x = n := by
  have hfl : ⌊x⌋ = n := by
    rw [hx, Int.floor_eq_iff]
    constructor
    · linarith
    · linarith
  have hfr : Int.fract x = 1 / 2 := by
    rw [Int.fract, hfl, hx]; ring
  unfold pyRound
  rw [if_neg (by rw [hfr]; exact lt_irrefl _), if_neg (by rw [hfr]; exact lt_irrefl _),
    hfl, if_pos he]

/-! ### Claim C9 — complexity classification boundary cases -/

/-- C9: `classify_complexity(2 segments, 0 hips, 0 valleys, 0° variation)`
yields score 0, class "simple", factor 1.00, default waste 10%; and
`classify_complexity(6, 4, 2, 12°)` yields score 2+4+4+2 = 12, class
"very_complex", factor 1.15, default waste 15%. -/
theorem claim_C9 :
    complexity_score 2 0 0 (0 : ℚ) = 0 ∧
    classify_complexity 2 0 0 (0 : ℚ) = (1.00, "simple") ∧
    (waste_map "simple" : ℚ) = 10 ∧
    complexity_score 6 4 2 (12 : ℚ) = 2 + 4 + 4 + 2 ∧
    classify_complexity 6 4 2 (12 : ℚ) = (1.15, "very_complex") ∧
    (waste_map "very_complex" : ℚ) = 15 := by
  refine ⟨by norm_num [complexity_score], by norm_num [classify_complexity, complexity_score],
    by simp [waste_map], by norm_num [complexity_score],
    by norm_num [classify_complexity, complexity_score], by simp [waste_map]⟩

/-! ### Claim C6 — 16-point cardinal direction -/

/-- C6 counterexample: the spec says the sector midpoints round half up, so
that `degrees_to_cardinal 11.25 = "NNE"`.  Python `round` rounds half to
even, so the code returns "N" at 11.25°. -/
theorem claim_C6_counterexample :
    degrees_to_cardinal (11.25 : ℚ) = "N" ∧
    degrees_to_cardinal (11.25 : ℚ) ≠ "NNE" := by
  have h : degrees_to_cardinal (11.25 : ℚ) = "N" := by
    rw [degrees_to_cardinal_eq, pymod_eq_self (by norm_num) (by norm_num),
      pyRound_tie_even (show (11.25 : ℚ) / 22.5 = ((0 : ℤ) : ℚ) + 1 / 2 by norm_num)
        (by decide)]
    rfl
  exact ⟨h, by rw [h]; decide⟩

/-- C6 (amended): `degrees_to_cardinal` divides the circle into 22.5°
sectors with round-half-to-EVEN at sector midpoints (so 11.25° maps to "N"
and 56.25° to "NE", not "NNE"/"ENE"), wraps around at 360° (the result for
any bearing equals the result for its value mod 360), and always returns
one of the 16 directions. -/
theorem claim_C6_amended :
    degrees_to_cardinal (11.25 : ℚ) = "N" ∧
    degrees_to_cardinal (56.25 : ℚ) = "NE" ∧
    (∀ d : ℚ, degrees_to_cardinal d = degrees_to_cardinal (pymod d 360)) ∧
    (∀ d : ℚ, degrees_to_cardinal d ∈ cardinal_dirs) := by
  refine ⟨?_, ?_, ?_, ?_⟩
  · rw [degrees_to_cardinal_eq, pymod_eq_self (by norm_num) (by norm_num),
      pyRound_tie_even (show (11.25 : ℚ) / 22.5 = ((0 : ℤ) : ℚ) + 1 / 2 by norm_num)
        (by decide)]
    rfl
  · rw [degrees_to_cardinal_eq, pymod_eq_self (by norm_num) (by norm_num),
      pyRound_tie_even (show (56.25 : ℚ) / 22.5 = ((2 : ℤ) : ℚ) + 1 / 2 by norm_num)
        (by decide)]
    rfl
  · intro d
    rw [degrees_to_cardinal_eq, degrees_to_cardinal_eq,
      pymod_idem (by norm_num : (0 : ℚ) < 360)]
  · intro d
    rw [degrees_to_cardinal_eq]
    have h0 : 0 ≤ pyRound (pymod d 360 / 22.5) % 16 :=
      Int.emod_nonneg _ (by norm_num)
    have h1 : pyRound (pymod d 360 / 22.5) % 16 < 16 :=
      Int.emod_lt_of_pos _ (by norm_num)
    have h2 : (pyRound (pymod d 360 / 22.5) % 16).toNat < cardinal_dirs.length := by
      have h3 : cardinal_dirs.length = 16 := by decide
      omega
    rw [List.getD_eq_getElem cardinal_dirs "N" h2]
    exact List.getElem_mem h2

/-! ### Claim C8 — waste table monotonicity -/

/-- C8 counterexample: for total area 1 ft² all four `gross_sqft` values
round to 1, so they are not strictly increasing as claimed for "every"
fixed total area. -/
theorem claim_C8_counterexample :
    ((generate_waste_table (1 : ℚ)).map (fun r => r.gross_sqft)) = [1, 1, 1, 1] ∧
    ¬ List.Chain' (fun a b => a < b)
      ((generate_waste_table (1 : ℚ)).map (fun r => r.gross_sqft)) := by
  have r1 : pyRound ((1.05 : ℚ)) = 1 :=
    pyRound_eq_of_mem (by norm_num) (by norm_num)
  have r2 : pyRound ((1.10 : ℚ)) = 1 :=
    pyRound_eq_of_mem (by norm_num) (by norm_num)
  have r3 : pyRound ((1.15 : ℚ)) = 1 :=
    pyRound_eq_of_mem (by norm_num) (by norm_num)
  have r4 : pyRound ((1.20 : ℚ)) = 1 :=
    pyRound_eq_of_mem (by norm_num) (by norm_num)
  have e : (generate_waste_table (1 : ℚ)).map (fun r => r.gross_sqft) = [1, 1, 1, 1] := by
    simp [generate_waste_table, WASTE_FACTORS, r1, r2, r3, r4]
  refine ⟨e, ?_⟩
  rw [e]
  simp [List.chain'_cons]

/-- C8 (amended): for every fixed total area above 20 ft² (so that the 5%
steps between consecutive waste factors exceed one rounding unit), the
`gross_sqft` values of the four waste-table rows strictly increase. -/
theorem claim_C8_amended (t : ℚ) (h : 20 < t) :
    List.Chain' (fun a b => a < b)
      ((generate_waste_table t).map (fun r => r.gross_sqft)) := by
  have e : (generate_waste_table t).map (fun r => r.gross_sqft) =
      [((pyRound (t * 1.05) : ℤ) : ℚ), ((pyRound (t * 1.10) : ℤ) : ℚ),
       ((pyRound (t * 1.15) : ℤ) : ℚ), ((pyRound (t * 1.20) : ℤ) : ℚ)] := by
    simp [generate_waste_table, WASTE_FACTORS]
  rw [e]
  have h1 : pyRound (t * 1.05) < pyRound (t * 1.10) :=
    pyRound_lt_pyRound (by linarith)
  have h2 : pyRound (t * 1.10) < pyRound (t * 1.15) :=
    pyRound_lt_pyRound (by linarith)
  have h3 : pyRound (t * 1.15) < pyRound (t * 1.20) :=
    pyRound_lt_pyRound (by linarith)
  refine List.Chain'.cons (by exact_mod_cast h1) ?_
  refine List.Chain'.cons (by exact_mod_cast h2) ?_
  exact List.chain'_pair.2 (by exact_mod_cast h3)

/-- C8 witness: the amended theorem applied at total area 40 ft². -/
theorem claim_C8_witness :
    (20 : ℚ) < 40 ∧
    List.Chain' (fun a b => a < b)
      ((generate_waste_table (40 : ℚ)).map (fun r => r.gross_sqft)) :=
  ⟨by norm_num, claim_C8_amended 40 (by norm_num)⟩

/-! ### Claim C10 — empty segment list -/

/-- C10: for the empty segment list the Edge Synthesis Engine returns an
empty edge list (no fault), and the edge summary of that output has all
five per-type totals and the grand total equal to 0. -/
theorem claim_C10 :
    ∀ t : ℝ, generate_edges [] t = [] ∧
      compute_edge_summary (generate_edges [] t) =
        { total_ridge_ft := 0, total_hip_ft := 0, total_valley_ft := 0,
          total_eave_ft := 0, total_rake_ft := 0, total_linear_ft := 0 } := by
  intro t
  have h1 : generate_edges [] t = [] := by
    unfold generate_edges
    rw [if_pos rfl]
  refine ⟨h1, ?_⟩
  rw [h1]
  unfold compute_edge_summary edge_type_total
  simp [pyRound_zero]

/-! ### Claim C5 — BOM totals and conditional line items -/

lemma sum_int_div_100 (l : List ℚ) (h : ∀ x ∈ l, ∃ k : ℤ, x = (k : ℚ) / 100) :
    ((pyRound (l.sum * 100) : ℤ) : ℚ) / 100 = l.sum := by
  obtain ⟨K, hK⟩ : ∃ K : ℤ, l.sum = (K : ℚ) / 100 := by
    induction l with
    | nil => exact ⟨0, by simp⟩
    | cons a t ih =>
      obtain ⟨k, hk⟩ := h a (List.mem_cons_self a t)
      obtain ⟨K, hK⟩ := ih (fun x hx => h x (List.mem_cons_of_mem a hx))
      refine ⟨k + K, ?_⟩
      rw [List.sum_cons, hk, hK]
      push_cast
      ring
  rw [hK]
  have h2 : (K : ℚ) / 100 * 100 = (K : ℚ) := by field_simp
  rw [h2, pyRound_intCast]

lemma eq_of_mem_ite_singleton {β : Type} {c : Prop} [Decidable c] {x y : β}
    (h : x ∈ (if c then [y] else [])) : x = y := by
  by_cases hc : c
  · rw [if_pos hc] at h
    simpa using h
  · rw [if_neg hc] at h
    simp at h

lemma edge_type_total_nonneg {edges : List (EdgeMeasurement α)} (t : String)
    (h : ∀ e ∈ edges, 0 ≤ e.true_length_ft) : 0 ≤ edge_type_total edges t := by
  unfold edge_type_total
  apply List.sum_nonneg
  intro x hx
  simp only [List.mem_map, List.mem_filter] at hx
  obtain ⟨e, ⟨he, _⟩, rfl⟩ := hx
  exact h e he

/-- Every line item emitted by the Material Estimator carries a
`line_total_cad` that is an integer number of cents. -/
lemma cme_line_total_cents (true_area_sqft : ℚ) (edges : List (EdgeMeasurement ℚ))
    (segments : List (RoofSegment ℚ)) (shingle_type : String) :
    ∀ it ∈ (compute_material_estimate true_area_sqft edges segments
      shingle_type).line_items,
      ∃ k : ℤ, it.line_total_cad = (k : ℚ) / 100 := by
  intro it hit
  simp only [compute_material_estimate, List.mem_append, List.mem_cons,
    List.not_mem_nil, or_false] at hit
  rcases hit with (((h | h | h | h | h | h) | h) | h) | h
  · exact ⟨_, by rw [h]⟩
  · exact ⟨_, by rw [h]⟩
  · exact ⟨_, by rw [h]⟩
  · exact ⟨_, by rw [h]⟩
  · exact ⟨_, by rw [h]⟩
  · exact ⟨_, by rw [h]⟩
  · exact ⟨_, by rw [eq_of_mem_ite_singleton h]⟩
  · exact ⟨_, by rw [h]⟩
  · exact ⟨_, by rw [eq_of_mem_ite_singleton h]⟩

/-- The categories of the emitted line items, in order: six unconditional
items, the conditional valley flashing, nails, the conditional ridge vent. -/
lemma cme_categories (true_area_sqft : ℚ) (edges : List (EdgeMeasurement ℚ))
    (segments : List (RoofSegment ℚ)) (shingle_type : String) :
    ((compute_material_estimate true_area_sqft edges segments
      shingle_type).line_items).map (fun it => it.category) =
      ["shingles", "underlayment", "ice_shield", "starter_strip", "ridge_cap",
        "drip_edge"] ++
      (if 0 < edge_type_total edges "valley" then ["valley_metal"] else []) ++
      ["nails"] ++
      (if 0 < edge_type_total edges "ridge" then ["ventilation"] else []) := by
  by_cases hv : 0 < edge_type_total edges "valley" <;>
    by_cases hr : 0 < edge_type_total edges "ridge" <;>
    simp [compute_material_estimate, hv, hr]

/-- C5: for every input with non-negative edge lengths, the returned total
material cost equals the sum of the line totals of the emitted line items
exactly; the valley-flashing item is emitted iff the total valley length is
positive, the ridge-vent item iff the total ridge length is positive, and
each is absent iff its driving edge total is exactly 0. -/
theorem claim_C5 (true_area_sqft : ℚ) (edges : List (EdgeMeasurement ℚ))
    (segments : List (RoofSegment ℚ)) (shingle_type : String)
    (hnn : ∀ e ∈ edges, 0 ≤ e.true_length_ft) :
    (compute_material_estimate true_area_sqft edges segments
        shingle_type).total_material_cost_cad =
      (((compute_material_estimate true_area_sqft edges segments
        shingle_type).line_items).map (fun it => it.line_total_cad)).sum ∧
    ((∃ it ∈ (compute_material_estimate true_area_sqft edges segments
        shingle_type).line_items, it.category = "valley_metal") ↔
      0 < edge_type_total edges "valley") ∧
    ((∃ it ∈ (compute_material_estimate true_area_sqft edges segments
        shingle_type).line_items, it.category = "ventilation") ↔
      0 < edge_type_total edges "ridge") ∧
    ((¬∃ it ∈ (compute_material_estimate true_area_sqft edges segments
        shingle_type).line_items, it.category = "valley_metal") ↔
      edge_type_total edges "valley" = 0) ∧
    ((¬∃ it ∈ (compute_material_estimate true_area_sqft edges segments
        shingle_type).line_items, it.category = "ventilation") ↔
      edge_type_total edges "ridge" = 0) := by
  have hvn : 0 ≤ edge_type_total edges "valley" := edge_type_total_nonneg _ hnn
  have hrn : 0 ≤ edge_type_total edges "ridge" := edge_type_total_nonneg _ hnn
  have hcat := cme_categories true_area_sqft edges segments shingle_type
  have hmm : ∀ c : String,
      (∃ it ∈ (compute_material_estimate true_area_sqft edges segments
        shingle_type).line_items, it.category = c) ↔
      c ∈ ((compute_material_estimate true_area_sqft edges segments
        shingle_type).line_items).map (fun it => it.category) := by
    intro c
    simp [List.mem_map]
  have hviff : (∃ it ∈ (compute_material_estimate true_area_sqft edges segments
      shingle_type).line_items, it.category = "valley_metal") ↔
      0 < edge_type_total edges "valley" := by
    rw [hmm, hcat]
    by_cases hv : 0 < edge_type_total edges "valley" <;>
      by_cases hr : 0 < edge_type_total edges "ridge" <;>
      simp [hv, hr]
  have hriff : (∃ it ∈ (compute_material_estimate true_area_sqft edges segments
      shingle_type).line_items, it.category = "ventilation") ↔
      0 < edge_type_total edges "ridge" := by
    rw [hmm, hcat]
    by_cases hv : 0 < edge_type_total edges "valley" <;>
      by_cases hr : 0 < edge_type_total edges "ridge" <;>
      simp [hv, hr]
  refine ⟨?_, hviff, hriff, ?_, ?_⟩
  · have key : (compute_material_estimate true_area_sqft edges segments
        shingle_type).total_material_cost_cad =
        ((pyRound ((((compute_material_estimate true_area_sqft edges segments
          shingle_type).line_items).map (fun it => it.line_total_cad)).sum * 100) : ℤ) : ℚ)
          / 100 := rfl
    rw [key]
    apply sum_int_div_100
    intro x hx
    simp only [List.mem_map] at hx
    obtain ⟨it, hit, rfl⟩ := hx
    exact cme_line_total_cents _ _ _ _ it hit
  · rw [hviff]
    constructor
    · intro h
      exact le_antisymm (not_lt.1 h) hvn
    · intro h
      rw [h]
      exact lt_irrefl 0
  · rw [hriff]
    constructor
    · intro h
      exact le_antisymm (not_lt.1 h) hrn
    · intro h
      rw [h]
      exact lt_irrefl 0

/-- Concrete valley edge used by the C5 witness. -/
def witnessValleyEdge : EdgeMeasurement ℚ :=
  { edge_type := "valley", label := "East Valley", plan_length_ft := 10,
    true_length_ft := 12, pitch_factor := 1.2, adjacent_segments := none }

/-- Concrete ridge edge used by the C5 witness. -/
def witnessRidgeEdge : EdgeMeasurement ℚ :=
  { edge_type := "ridge", label := "Main Ridge Line", plan_length_ft := 5,
    true_length_ft := 5, pitch_factor := 1, adjacent_segments := none }

/-- C5 witness: the theorem applied at a concrete roof (area 10000 ft², one
valley edge of true length 12 ft and one ridge edge of true length 5 ft). -/
theorem claim_C5_witness :
    (∀ e ∈ [witnessValleyEdge, witnessRidgeEdge], 0 ≤ e.true_length_ft) ∧
    (compute_material_estimate 10000 [witnessValleyEdge, witnessRidgeEdge]
        [] "architectural").total_material_cost_cad =
      (((compute_material_estimate 10000 [witnessValleyEdge, witnessRidgeEdge]
        [] "architectural").line_items).map (fun it => it.line_total_cad)).sum := by
  have hnn : ∀ e ∈ [witnessValleyEdge, witnessRidgeEdge], 0 ≤ e.true_length_ft := by
    intro e he
    rcases List.mem_cons.1 he with h | h
    · rw [h]
      norm_num [witnessValleyEdge]
    · rcases List.mem_cons.1 h with h2 | h2
      · rw [h2]
        norm_num [witnessRidgeEdge]
      · simp at h2
  exact ⟨hnn, (claim_C5 10000 [witnessValleyEdge, witnessRidgeEdge] []
    "architectural" hnn).1⟩

/-! ### Claim C1 — invalid shingle type is silently treated as 3-tab -/

/-- Any shingle type other than "architectural" produces exactly the
"3-tab" Bill of Materials, except for the echoed `shingle_type` string. -/
lemma cme_invalid_shingle (sh : String) (h : sh ≠ "architectural")
    (a : ℚ) (edges : List (EdgeMeasurement ℚ)) (segments : List (RoofSegment ℚ)) :
    compute_material_estimate a edges segments sh =
      { compute_material_estimate a edges segments "3-tab" with shingle_type := sh } := by
  simp [compute_material_estimate, h]

/-- Any shingle type other than "architectural" produces exactly the
"3-tab" RAS yield analysis. -/
lemma csy_invalid_shingle (sh : String) (h : sh ≠ "architectural")
    (segments : List (RoofSegment ℝ)) (a : ℝ) :
    compute_ras_yield segments a sh = compute_ras_yield segments a "3-tab" := by
  simp [compute_ras_yield, h]

/-- A dummy line item (used only as the `getD` fallback below). -/
def dummyItem : MaterialLineItem ℚ :=
  { category := "", description := "", unit := "", net_quantity := 0,
    waste_pct := 0, gross_quantity := 0, order_quantity := 0, order_unit := "",
    unit_price_cad := 0, line_total_cad := 0 }

/-- C1 counterexample: the invalid shingle type "fiberglass" is NOT signaled
to the caller — both functions return normally, with exactly the "3-tab"
pricing/weight assumptions (the shingles line item is priced at the 3-tab
bundle price of $32). -/
theorem claim_C1_counterexample :
    compute_material_estimate (10000 : ℚ) [] [] "fiberglass" =
      { compute_material_estimate (10000 : ℚ) [] [] "3-tab" with
        shingle_type := "fiberglass" } ∧
    ((compute_material_estimate (10000 : ℚ) [] [] "fiberglass").line_items.getD 0
      dummyItem).unit_price_cad = 32 ∧
    compute_ras_yield [] 100 "fiberglass" = compute_ras_yield [] 100 "3-tab" := by
  refine ⟨cme_invalid_shingle "fiberglass" (by decide) 10000 [] [], ?_,
    csy_invalid_shingle "fiberglass" (by decide) [] 100⟩
  simp [compute_material_estimate, PRICING]
  norm_num

/-- C1 (amended): for every shingle type that is neither "architectural"
nor "3-tab", the Material Estimator and the RAS Yield Analyzer do NOT
signal an error: they silently fall back to the 3-tab pricing and weight
assumptions, returning exactly the "3-tab" result (up to the echoed
`shingle_type` string in the estimate). -/
theorem claim_C1_amended (sh : String) (h : sh ≠ "architectural") :
    (∀ (a : ℚ) (edges : List (EdgeMeasurement ℚ)) (segments : List (RoofSegment ℚ)),
      compute_material_estimate a edges segments sh =
        { compute_material_estimate a edges segments "3-tab" with
          shingle_type := sh }) ∧
    (∀ (segments : List (RoofSegment ℝ)) (a : ℝ),
      compute_ras_yield segments a sh = compute_ras_yield segments a "3-tab") :=
  ⟨fun a edges segments => cme_invalid_shingle sh h a edges segments,
   fun segments a => csy_invalid_shingle sh h segments a⟩

/-- C1 witness: the amended theorem applied at the concrete invalid shingle
type "solar-tile". -/
theorem claim_C1_witness :
    ("solar-tile" ≠ "architectural") ∧
    compute_material_estimate (5000 : ℚ) [] [] "solar-tile" =
      { compute_material_estimate (5000 : ℚ) [] [] "3-tab" with
        shingle_type := "solar-tile" } ∧
    compute_ras_yield [] 50 "solar-tile" = compute_ras_yield [] 50 "3-tab" :=
  ⟨by decide, (claim_C1_amended "solar-tile" (by decide)).1 5000 [] [],
    (claim_C1_amended "solar-tile" (by decide)).2 [] 50⟩

/-! ### Claim C2 — degenerate pitch handling in the geometry functions -/

lemma hip_valley_factor_zero : hip_valley_factor 0 = 1 := by
  unfold hip_valley_factor radians
  rw [zero_mul, zero_div, Real.tan_zero]
  norm_num
  rw [show (288 : ℝ) = 12 ^ 2 * 2 by norm_num, Real.sqrt_mul (by positivity),
    Real.sqrt_sq (by norm_num)]
  field_simp

lemma hip_valley_factor_neg_45 : hip_valley_factor (-45) = Real.sqrt 2 := by
  unfold hip_valley_factor radians
  have h1 : (-45 : ℝ) * Real.pi / 180 = -(Real.pi / 4) := by ring
  rw [h1, Real.tan_neg, Real.tan_pi_div_four]
  have h2 : 2 * (12 * -(1 : ℝ)) * (12 * -(1 : ℝ)) + 288 = 576 := by norm_num
  rw [h2, show (576 : ℝ) = 24 ^ 2 by norm_num, Real.sqrt_sq (by norm_num)]
  have h3 : Real.sqrt 2 * Real.sqrt 2 = 2 := Real.mul_self_sqrt (by norm_num)
  have h4 : Real.sqrt 2 ≠ 0 := by
    intro hc
    rw [hc] at h3
    norm_num at h3
  field_simp
  linarith [h3]

lemma sqrt_two_ne_one : Real.sqrt 2 ≠ 1 := by
  intro hc
  have h := Real.mul_self_sqrt (by norm_num : (0 : ℝ) ≤ 2)
  rw [hc] at h
  norm_num at h

/-- For pitches strictly between 0° and 90° the cosine is positive. -/
lemma cos_radians_pos {p : ℝ} (h0 : 0 < p) (h90 : p < 90) :
    0 < Real.cos (radians p) := by
  apply Real.cos_pos_of_mem_Ioo
  constructor
  · have hpi := Real.pi_pos
    unfold radians
    nlinarith
  · have hpi := Real.pi_pos
    unfold radians
    nlinarith

/-- C2 counterexample: −45° is a degenerate pitch (≤ 0°), but
`hip_valley_factor(−45°)` is √2, not the claimed identity factor 1.0 —
the function has no degenerate-pitch guard. -/
theorem claim_C2_counterexample :
    ((-45 : ℝ) ≤ 0) ∧ hip_valley_factor (-45) ≠ 1 := by
  refine ⟨by norm_num, ?_⟩
  rw [hip_valley_factor_neg_45]
  exact sqrt_two_ne_one

/-- C2 (amended): for every degenerate pitch (≤ 0°, ≥ 90°, or cosine ≤ 0),
`true_area_from_footprint` returns the footprint unchanged and
`rake_factor` returns exactly 1.0, and neither raises; `hip_valley_factor`,
however, has no degenerate guard: it evaluates its formula, giving 1.0 at
0° but √2 at −45°. -/
theorem claim_C2_amended :
    (∀ f p : ℝ, (p ≤ 0 ∨ 90 ≤ p ∨ Real.cos (radians p) ≤ 0) →
      true_area_from_footprint f p = f) ∧
    (∀ p : ℝ, (p ≤ 0 ∨ 90 ≤ p ∨ Real.cos (radians p) ≤ 0) →
      rake_factor p = 1) ∧
    hip_valley_factor 0 = 1 ∧
    hip_valley_factor (-45) = Real.sqrt 2 ∧
    Real.sqrt 2 ≠ 1 := by
  refine ⟨?_, ?_, hip_valley_factor_zero, hip_valley_factor_neg_45, sqrt_two_ne_one⟩
  · intro f p hp
    unfold true_area_from_footprint
    by_cases h1 : p ≤ 0 ∨ 90 ≤ p
    · rw [if_pos h1]
    · rcases hp with h | h | h
      · exact absurd (Or.inl h) h1
      · exact absurd (Or.inr h) h1
      · rw [if_neg h1, if_pos h]
  · intro p hp
    unfold rake_factor
    by_cases h1 : p ≤ 0 ∨ 90 ≤ p
    · rw [if_pos h1]
    · push_neg at h1
      rcases hp with h | h | h
      · exact absurd h (not_le.2 h1.1)
      · exact absurd h (not_le.2 h1.2)
      · exact absurd h (not_le.2 (cos_radians_pos h1.1 h1.2))

/-- C2 witness: the amended theorem applied at footprint 100 ft² and the
degenerate pitch −5°. -/
theorem claim_C2_witness :
    ((-5 : ℝ) ≤ 0 ∨ (90 : ℝ) ≤ -5 ∨ Real.cos (radians (-5)) ≤ 0) ∧
    true_area_from_footprint 100 (-5) = 100 ∧
    rake_factor (-5) = 1 :=
  ⟨Or.inl (by norm_num),
   claim_C2_amended.1 100 (-5) (Or.inl (by norm_num)),
   claim_C2_amended.2.1 (-5) (Or.inl (by norm_num))⟩

/-! ### Claim C4 — edge invariants in the Edge Synthesis Engine -/

def seg60 : RoofSegment ℝ :=
  { name := "Segment 1", footprint_area_sqft := 636.54, true_area_sqft := 1273.08,
    true_area_sqm := 118.3, pitch_degrees := 60, pitch_ratio := "20.8:12",
    azimuth_degrees := 180, azimuth_direction := "S", plane_height_meters := none }

lemma rake_factor_60 : rake_factor (60 : ℝ) = 2 := by
  unfold rake_factor radians
  rw [if_neg (by norm_num)]
  rw [show (60 : ℝ) * Real.pi / 180 = Real.pi / 3 by ring, Real.cos_pi_div_three]
  norm_num

lemma generate_edges_seg60 :
    generate_edges [seg60] (636.54 : ℝ) =
      [{ edge_type := "ridge", label := "Main Ridge Line", plan_length_ft := 26,
         true_length_ft := 26, pitch_factor := 1, adjacent_segments := some [0, 1] },
       { edge_type := "eave", label := "South Eave", plan_length_ft := 29,
         true_length_ft := 29, pitch_factor := 1, adjacent_segments := none },
       { edge_type := "eave", label := "North Eave", plan_length_ft := 29,
         true_length_ft := 29, pitch_factor := 1, adjacent_segments := none },
       { edge_type := "rake", label := "East Rake (Left)", plan_length_ft := 10,
         true_length_ft := 21, pitch_factor := 2, adjacent_segments := none },
       { edge_type := "rake", label := "East Rake (Right)", plan_length_ft := 10,
         true_length_ft := 21, pitch_factor := 2, adjacent_segments := none },
       { edge_type := "rake", label := "West Rake (Left)", plan_length_ft := 10,
         true_length_ft := 21, pitch_factor := 2, adjacent_segments := none },
       { edge_type := "rake", label := "West Rake (Right)", plan_length_ft := 10,
         true_length_ft := 21, pitch_factor := 2, adjacent_segments := none }] := by
  have hsqrt : Real.sqrt ((636.54 : ℝ) / 1.5) = 20.6 := by
    rw [show (636.54 : ℝ) / 1.5 = 20.6 ^ 2 by norm_num, Real.sqrt_sq (by norm_num)]
  have h1 : pyRound ((20.6 : ℝ) * 1.5 * 0.85) = 26 :=
    pyRound_eq_of_mem (by norm_num) (by norm_num)
  have h2 : pyRound ((20.6 : ℝ) * 1.5 * 0.95) = 29 :=
    pyRound_eq_of_mem (by norm_num) (by norm_num)
  have h3 : pyRound ((20.6 : ℝ) / 2) = 10 :=
    pyRound_eq_of_mem (by norm_num) (by norm_num)
  have h4 : pyRound ((20.6 : ℝ) / 2 * 2) = 21 := by
    rw [show (20.6 : ℝ) / 2 * 2 = 20.6 by ring]
    exact pyRound_eq_of_mem (by norm_num) (by norm_num)
  have h5 : pyRound ((2 : ℝ) * 1000) = 2000 := by
    rw [show (2 : ℝ) * 1000 = ((2000 : ℤ) : ℝ) by norm_num, pyRound_intCast]
  have h41 : ¬((4 : ℕ) ≤ 1) := by norm_num
  have h13 : (1 : ℕ) ≤ 3 := by norm_num
  simp only [generate_edges]
  rw [if_neg (by simp)]
  simp only [seg60, List.map_cons, List.map_nil, List.sum_cons, List.sum_nil,
    List.length_cons, List.length_nil, add_zero, zero_add, Nat.cast_one, div_one]
  rw [hsqrt, rake_factor_60]
  rw [if_neg h41, if_neg h41, if_neg h41, if_neg h41, if_pos h13]
  simp only [List.map_cons, List.map_nil, List.nil_append, List.append_nil,
    List.singleton_append, List.cons_append]
  rw [h1, h2, h3, h4, h5]
  norm_num

lemma one_le_hip_valley_factor (p : ℝ) : 1 ≤ hip_valley_factor p := by
  unfold hip_valley_factor
  have hd : (0 : ℝ) < 12 * Real.sqrt 2 := by positivity
  rw [le_div_iff₀ hd, one_mul]
  have h288 : (12 : ℝ) * Real.sqrt 2 = Real.sqrt 288 := by
    rw [show (288 : ℝ) = 12 ^ 2 * 2 by norm_num, Real.sqrt_mul (by positivity),
      Real.sqrt_sq (by norm_num)]
  rw [h288]
  apply Real.sqrt_le_sqrt
  nlinarith [sq_nonneg (12 * Real.tan (radians p))]

lemma one_le_rake_factor (p : ℝ) : 1 ≤ rake_factor p := by
  unfold rake_factor
  by_cases h : p ≤ 0 ∨ 90 ≤ p
  · rw [if_pos h]
  · rw [if_neg h]
    push_neg at h
    have hc := cos_radians_pos h.1 h.2
    rw [le_div_iff₀ hc, one_mul]
    exact Real.cos_le_one (radians p)

lemma one_le_round3 {x : ℝ} (h : 1 ≤ x) : 1 ≤ (pyRound (x * 1000) : ℝ) / 1000 := by
  have h1 : ((1000 : ℤ) : ℝ) ≤ x * 1000 := by push_cast; linarith
  have h2 : (1000 : ℤ) ≤ pyRound (x * 1000) := by
    have h3 := pyRound_mono h1
    rwa [pyRound_intCast] at h3
  rw [le_div_iff₀ (by norm_num : (0 : ℝ) < 1000), one_mul]
  exact_mod_cast h2

theorem claim_C4_amended :
    ∀ (segments : List (RoofSegment ℝ)) (total : ℝ) (e : EdgeMeasurement ℝ),
      e ∈ generate_edges segments total →
      ((e.edge_type = "ridge" ∨ e.edge_type = "eave") →
        e.pitch_factor = 1 ∧ e.true_length_ft = e.plan_length_ft) ∧
      ((e.edge_type = "hip" ∨ e.edge_type = "valley" ∨ e.edge_type = "rake") →
        1 ≤ e.pitch_factor) := by
  intro segments total e he
  by_cases hs : segments = []
  · rw [hs] at he
    unfold generate_edges at he
    rw [if_pos rfl] at he
    simp at he
  · simp only [generate_edges] at he
    rw [if_neg hs] at he
    by_cases h4 : 4 ≤ segments.length
    · have h3 : ¬(segments.length ≤ 3) := by omega
      rw [if_pos h4, if_pos h4, if_pos h4, if_pos h4, if_neg h3] at he
      simp only [List.mem_append, List.mem_cons, List.not_mem_nil, or_false,
        List.mem_map, List.singleton_append, List.append_nil] at he
      rcases he with (((he | he) | ⟨lab, hlab, he⟩) | ⟨lab, hlab, he⟩) | ⟨pr, hpr, he⟩ <;>
        subst he
      · exact ⟨fun _ => ⟨rfl, rfl⟩, fun hc => by rcases hc with hc | hc | hc <;> simp at hc⟩
      · exact ⟨fun _ => ⟨rfl, rfl⟩, fun hc => by rcases hc with hc | hc | hc <;> simp at hc⟩
      · exact ⟨fun hc => by rcases hc with hc | hc <;> simp at hc,
          fun _ => one_le_round3 (one_le_hip_valley_factor _)⟩
      · exact ⟨fun hc => by rcases hc with hc | hc <;> simp at hc,
          fun _ => one_le_round3 (one_le_hip_valley_factor _)⟩
      · exact ⟨fun _ => ⟨rfl, rfl⟩, fun hc => by rcases hc with hc | hc | hc <;> simp at hc⟩
    · have h3 : segments.length ≤ 3 := by omega
      rw [if_neg h4, if_neg h4, if_neg h4, if_neg h4, if_pos h3] at he
      simp only [List.mem_append, List.mem_cons, List.not_mem_nil, or_false,
        List.mem_map, List.singleton_append, List.append_nil, List.nil_append] at he
      rcases he with (he | ⟨pr, hpr, he⟩) | ⟨lab, hlab, he⟩ <;> subst he
      · exact ⟨fun _ => ⟨rfl, rfl⟩, fun hc => by rcases hc with hc | hc | hc <;> simp at hc⟩
      · exact ⟨fun _ => ⟨rfl, rfl⟩, fun hc => by rcases hc with hc | hc | hc <;> simp at hc⟩
      · exact ⟨fun hc => by rcases hc with hc | hc <;> simp at hc,
          fun _ => one_le_round3 (one_le_rake_factor _)⟩


/-- A dummy edge (used only as the `getD` fallback below). -/
def dummyEdge : EdgeMeasurement ℝ :=
  { edge_type := "", label := "", plan_length_ft := 0, true_length_ft := 0,
    pitch_factor := 1, adjacent_segments := none }

/-- The main ridge edge generated for the concrete one-segment roof. -/
def mainRidge60 : EdgeMeasurement ℝ :=
  { edge_type := "ridge", label := "Main Ridge Line", plan_length_ft := 26,
    true_length_ft := 26, pitch_factor := 1, adjacent_segments := some [0, 1] }

/-- C4 counterexample: for a one-segment roof of pitch 60° over a
636.54 ft² footprint, the first rake edge stores plan length 10 ft
(rounded from 10.3), pitch factor 2.0, and true length 21 ft (rounded from
10.3 × 2), so the stored true length is NOT the product of the stored plan
length and the stored pitch factor (21 ≠ 10 × 2). -/
theorem claim_C4_counterexample :
    ((generate_edges [seg60] (636.54 : ℝ)).getD 3 dummyEdge).edge_type = "rake" ∧
    ((generate_edges [seg60] (636.54 : ℝ)).getD 3 dummyEdge).plan_length_ft = 10 ∧
    ((generate_edges [seg60] (636.54 : ℝ)).getD 3 dummyEdge).pitch_factor = 2 ∧
    ((generate_edges [seg60] (636.54 : ℝ)).getD 3 dummyEdge).true_length_ft = 21 ∧
    ((generate_edges [seg60] (636.54 : ℝ)).getD 3 dummyEdge).true_length_ft ≠
      ((generate_edges [seg60] (636.54 : ℝ)).getD 3 dummyEdge).plan_length_ft *
      ((generate_edges [seg60] (636.54 : ℝ)).getD 3 dummyEdge).pitch_factor := by
  rw [generate_edges_seg60]
  refine ⟨rfl, rfl, rfl, rfl, ?_⟩
  norm_num

/-- C4 witness: the amended theorem applied to the main ridge edge of the
concrete one-segment roof. -/
theorem claim_C4_witness :
    mainRidge60 ∈ generate_edges [seg60] (636.54 : ℝ) ∧
    (mainRidge60.edge_type = "ridge" ∨ mainRidge60.edge_type = "eave") ∧
    mainRidge60.pitch_factor = 1 ∧
    mainRidge60.true_length_ft = mainRidge60.plan_length_ft := by
  have hm : mainRidge60 ∈ generate_edges [seg60] (636.54 : ℝ) := by
    rw [generate_edges_seg60]
    exact List.mem_cons_self _ _
  have hc := (claim_C4_amended [seg60] (636.54 : ℝ) mainRidge60 hm).1 (Or.inl rfl)
  exact ⟨hm, Or.inl rfl, hc.1, hc.2⟩

/-! ### Claim C7 — RAS recovery-rate bound and uniform 3:12 classification -/

lemma contribution_nonneg {w b g f : ℝ} (hw : 0 ≤ w) (hb : 0 ≤ b) (hg : 0 ≤ g)
    (hf : 0 ≤ f) :
    0 ≤ (pyRound (w * b / 8 * 10) : ℝ) / 10 * 8 + (pyRound (w * g) : ℝ) +
      (pyRound (w * f) : ℝ) := by
  have o1 : (0 : ℤ) ≤ pyRound (w * b / 8 * 10) := pyRound_nonneg (by positivity)
  have o2 : (0 : ℤ) ≤ pyRound (w * g) := pyRound_nonneg (by positivity)
  have o3 : (0 : ℤ) ≤ pyRound (w * f) := pyRound_nonneg (by positivity)
  have c1 : (0 : ℝ) ≤ (pyRound (w * b / 8 * 10) : ℝ) := by exact_mod_cast o1
  have c2 : (0 : ℝ) ≤ (pyRound (w * g) : ℝ) := by exact_mod_cast o2
  have c3 : (0 : ℝ) ≤ (pyRound (w * f) : ℝ) := by exact_mod_cast o3
  linarith

lemma contribution_le {w b g f : ℝ} (hw : 69 / 10 ≤ w) (hb : 0 ≤ b) (hg : 0 ≤ g)
    (hf : 0 ≤ f) (hsum : b + g + f ≤ 73 / 100) :
    (pyRound (w * b / 8 * 10) : ℝ) / 10 * 8 + (pyRound (w * g) : ℝ) +
      (pyRound (w * f) : ℝ) ≤ w := by
  have u1 := pyRound_le (w * b / 8 * 10)
  have u2 := pyRound_le (w * g)
  have u3 := pyRound_le (w * f)
  have hw0 : (0 : ℝ) ≤ w := by linarith
  have hmul : w * (b + g + f) ≤ w * (73 / 100) :=
    mul_le_mul_of_nonneg_left hsum hw0
  nlinarith [hmul]

/-- The three yield rates of a segment: always one of the three class
triples, each summing to at most 0.73. -/
lemma ras_rates (wps : ℝ) (s : RoofSegment ℝ) :
    ∃ b g f : ℝ, 0 ≤ b ∧ 0 ≤ g ∧ 0 ≤ f ∧ b + g + f ≤ 73 / 100 ∧
      (ras_segment_yield wps s).binder_oil_gallons =
        (pyRound (s.true_area_sqft / 100 * wps * b / 8 * 10) : ℝ) / 10 ∧
      (ras_segment_yield wps s).granules_lbs =
        (pyRound (s.true_area_sqft / 100 * wps * g) : ℝ) ∧
      (ras_segment_yield wps s).fiber_lbs =
        (pyRound (s.true_area_sqft / 100 * wps * f) : ℝ) := by
  by_cases hc1 : 12 * Real.tan (radians s.pitch_degrees) ≤ 4
  · exact ⟨0.32, 0.33, 0.08, by norm_num, by norm_num, by norm_num, by norm_num,
      by simp [ras_segment_yield, hc1], by simp [ras_segment_yield, hc1],
      by simp [ras_segment_yield, hc1]⟩
  · by_cases hc2 : 6 < 12 * Real.tan (radians s.pitch_degrees)
    · exact ⟨0.25, 0.40, 0.06, by norm_num, by norm_num, by norm_num, by norm_num,
        by simp [ras_segment_yield, hc1, hc2], by simp [ras_segment_yield, hc1, hc2],
        by simp [ras_segment_yield, hc1, hc2]⟩
    · exact ⟨0.28, 0.36, 0.07, by norm_num, by norm_num, by norm_num, by norm_num,
        by simp [ras_segment_yield, hc1, hc2], by simp [ras_segment_yield, hc1, hc2],
        by simp [ras_segment_yield, hc1, hc2]⟩

/-- Per-segment recovery bound: for a segment of at least 3 sq ft, the
combined recoverable weight (oil-equivalent + granules + fiber) is between
0 and the segment weight. -/
lemma ras_segment_contribution (wps : ℝ) (h230 : 230 ≤ wps) (s : RoofSegment ℝ)
    (ha : 3 ≤ s.true_area_sqft) :
    0 ≤ (ras_segment_yield wps s).binder_oil_gallons * 8 +
        (ras_segment_yield wps s).granules_lbs +
        (ras_segment_yield wps s).fiber_lbs ∧
    (ras_segment_yield wps s).binder_oil_gallons * 8 +
        (ras_segment_yield wps s).granules_lbs +
        (ras_segment_yield wps s).fiber_lbs ≤ s.true_area_sqft / 100 * wps := by
  have hw : 69 / 10 ≤ s.true_area_sqft / 100 * wps := by nlinarith
  have hw0 : 0 ≤ s.true_area_sqft / 100 * wps := by linarith
  obtain ⟨b, g, f, hb, hg, hf, hsum, he1, he2, he3⟩ := ras_rates wps s
  rw [he1, he2, he3]
  constructor
  · have h := contribution_nonneg hw0 hb hg hf
    linarith
  · have h := contribution_le hw hb hg hf hsum
    linarith

/-- Summed recovery bound over all segments of a roof (each at least
3 sq ft): total recoverable weight is between 0 and the total weight. -/
lemma ras_totals_bound (wps : ℝ) (h230 : 230 ≤ wps)
    (l : List (RoofSegment ℝ)) (h : ∀ s ∈ l, 3 ≤ s.true_area_sqft) :
    0 ≤ ((l.map (ras_segment_yield wps)).map
          (fun s => s.binder_oil_gallons)).sum * 8 +
        ((l.map (ras_segment_yield wps)).map (fun s => s.granules_lbs)).sum +
        ((l.map (ras_segment_yield wps)).map (fun s => s.fiber_lbs)).sum ∧
    ((l.map (ras_segment_yield wps)).map
          (fun s => s.binder_oil_gallons)).sum * 8 +
        ((l.map (ras_segment_yield wps)).map (fun s => s.granules_lbs)).sum +
        ((l.map (ras_segment_yield wps)).map (fun s => s.fiber_lbs)).sum ≤
      (l.map (fun s => s.true_area_sqft)).sum / 100 * wps := by
  induction l with
  | nil => simp
  | cons s t ih =>
    have hs := ras_segment_contribution wps h230 s (h s (List.mem_cons_self s t))
    have ht := ih (fun x hx => h x (List.mem_cons_of_mem s hx))
    simp only [List.map_cons, List.sum_cons]
    have hdist : (s.true_area_sqft + (t.map (fun x => x.true_area_sqft)).sum) / 100 * wps =
        s.true_area_sqft / 100 * wps +
        (t.map (fun x => x.true_area_sqft)).sum / 100 * wps := by ring
    constructor
    · nlinarith [hs.1, ht.1]
    · rw [hdist]
      nlinarith [hs.2, ht.2]

lemma rate_in_range {R W : ℝ} (h0 : 0 ≤ R) (hRW : R ≤ W) (hW : 0 < W) :
    0 ≤ (pyRound (R / W * 1000) : ℝ) / 10 ∧
    (pyRound (R / W * 1000) : ℝ) / 10 ≤ 100 := by
  have hx0 : 0 ≤ R / W * 1000 := by positivity
  have hx1 : R / W * 1000 ≤ 1000 := by
    have hq : R / W ≤ 1 := (div_le_one hW).2 hRW
    nlinarith
  have p0 : 0 ≤ pyRound (R / W * 1000) := pyRound_nonneg hx0
  have p1 : pyRound (R / W * 1000) ≤ 1000 := by
    have h := pyRound_mono (show R / W * 1000 ≤ ((1000 : ℤ) : ℝ) by push_cast; linarith)
    rwa [pyRound_intCast] at h
  constructor
  · exact div_nonneg (by exact_mod_cast p0) (by norm_num)
  · rw [div_le_iff₀ (by norm_num : (0 : ℝ) < 10)]
    have hc : (pyRound (R / W * 1000) : ℝ) ≤ 1000 := by exact_mod_cast p1
    linarith

lemma c7_part1 (segments : List (RoofSegment ℝ)) (sh : String)
    (hne : segments ≠ [])
    (h3 : ∀ s ∈ segments, 3 ≤ s.true_area_sqft) :
    0 ≤ (compute_ras_yield segments
        ((segments.map (fun s => s.true_area_sqft)).sum) sh).recovery_rate_pct ∧
    (compute_ras_yield segments
        ((segments.map (fun s => s.true_area_sqft)).sum) sh).recovery_rate_pct ≤ 100 := by
  have h230 : 230 ≤ (if sh = "architectural" then (250 : ℝ) else 230) := by
    by_cases h : sh = "architectural"
    · rw [if_pos h]; norm_num
    · rw [if_neg h]
  have harea : 3 ≤ (segments.map (fun s => s.true_area_sqft)).sum := by
    cases segments with
    | nil => exact absurd rfl hne
    | cons s0 t =>
      simp only [List.map_cons, List.sum_cons]
      have h0 := h3 s0 (List.mem_cons_self s0 t)
      have ht : 0 ≤ (t.map (fun s => s.true_area_sqft)).sum := by
        apply List.sum_nonneg
        intro x hx
        simp only [List.mem_map] at hx
        obtain ⟨s, hs, rfl⟩ := hx
        have := h3 s (List.mem_cons_of_mem s0 hs)
        linarith
      linarith
  have hW : (0 : ℝ) < (segments.map (fun s => s.true_area_sqft)).sum / 100 *
      (if sh = "architectural" then (250 : ℝ) else 230) := by nlinarith
  obtain ⟨hlow, hhigh⟩ := ras_totals_bound _ h230 segments h3
  simp only [compute_ras_yield]
  rw [if_neg (ne_of_gt hW)]
  exact rate_in_range hlow hhigh hW

/-- The pitch in degrees of an exact 3:12 slope. -/
noncomputable def deg312 : ℝ := Real.arctan (1 / 4) * 180 / Real.pi

lemma tan_radians_deg312 : Real.tan (radians deg312) = 1 / 4 := by
  unfold radians deg312
  rw [show Real.arctan (1 / 4) * 180 / Real.pi * Real.pi / 180 = Real.arctan (1 / 4) by
    field_simp]
  exact Real.tan_arctan _

lemma ras_class_312 (wps : ℝ) (s : RoofSegment ℝ) (hp : s.pitch_degrees = deg312) :
    (ras_segment_yield wps s).recovery_class = "binder_oil" := by
  simp only [ras_segment_yield, hp, tan_radians_deg312]
  norm_num

lemma c7_part2 (segments : List (RoofSegment ℝ)) (ta : ℝ) (sh : String)
    (hne : segments ≠ [])
    (hu : ∀ s ∈ segments, s.pitch_degrees = deg312 ∧ 0 < s.true_area_sqft) :
    (∀ y ∈ (compute_ras_yield segments ta sh).segments,
      y.recovery_class = "binder_oil") ∧
    (compute_ras_yield segments ta sh).slope_distribution.low_pitch_pct = 100 := by
  constructor
  · intro y hy
    simp only [compute_ras_yield, List.mem_map] at hy
    obtain ⟨s, hs, rfl⟩ := hy
    exact ras_class_312 _ s (hu s hs).1
  · have hclass : ∀ y ∈ segments.map
        (ras_segment_yield (if sh = "architectural" then (250 : ℝ) else 230)),
        y.recovery_class = "binder_oil" := by
      intro y hy
      simp only [List.mem_map] at hy
      obtain ⟨s, hs, rfl⟩ := hy
      exact ras_class_312 _ s (hu s hs).1
    have hfil_all : (segments.map
        (ras_segment_yield (if sh = "architectural" then (250 : ℝ) else 230))).filter
          (fun s => s.recovery_class = "binder_oil") =
        segments.map (ras_segment_yield (if sh = "architectural" then (250 : ℝ) else 230)) := by
      apply List.filter_eq_self.2
      intro y hy
      simp [hclass y hy]
    have hfil_mixed : (segments.map
        (ras_segment_yield (if sh = "architectural" then (250 : ℝ) else 230))).filter
          (fun s => s.recovery_class = "mixed") = [] := by
      rw [List.filter_eq_nil_iff]
      intro y hy
      simp [hclass y hy]
    have hfil_gran : (segments.map
        (ras_segment_yield (if sh = "architectural" then (250 : ℝ) else 230))).filter
          (fun s => s.recovery_class = "granule") = [] := by
      rw [List.filter_eq_nil_iff]
      intro y hy
      simp [hclass y hy]
    have hmapmap : (segments.map
        (ras_segment_yield (if sh = "architectural" then (250 : ℝ) else 230))).map
          (fun s => s.area_sqft) = segments.map (fun s => s.true_area_sqft) := by
      rw [List.map_map]
      rfl
    have hA : 0 < (segments.map (fun s => s.true_area_sqft)).sum := by
      apply List.sum_pos
      · intro x hx
        simp only [List.mem_map] at hx
        obtain ⟨s, hs, rfl⟩ := hx
        exact (hu s hs).2
      · simp [List.map_eq_nil_iff, hne]
    simp only [compute_ras_yield]
    rw [hfil_all, hfil_mixed, hfil_gran]
    simp only [List.map_nil, List.sum_nil, add_zero]
    rw [hmapmap]
    rw [if_neg (ne_of_gt hA)]
    rw [div_self (ne_of_gt hA)]
    rw [show (1 : ℝ) * 100 * 10 = ((1000 : ℤ) : ℝ) by norm_num, pyRound_intCast]
    norm_num


/-- Concrete steep tiny segment for the C7 counterexample: 45° pitch,
0.65 ft² of true area. -/
def seg45 : RoofSegment ℝ :=
  { name := "Segment 1", footprint_area_sqft := 0.46, true_area_sqft := 0.65,
    true_area_sqm := 0.06, pitch_degrees := 45, pitch_ratio := "12.0:12",
    azimuth_degrees := 180, azimuth_direction := "S", plane_height_meters := none }

lemma tan_radians_45 : Real.tan (radians (45 : ℝ)) = 1 := by
  unfold radians
  rw [show (45 : ℝ) * Real.pi / 180 = Real.pi / 4 by ring, Real.tan_pi_div_four]

/-- C7 counterexample: a non-degenerate input (pitch 45° ∈ (0°, 90°),
positive area, total area equal to the segment-area sum) on which
`recovery_rate_pct` is 110.8, violating the claimed [0, 100] bound: the
per-segment rounding to 0.1 gal / 1 lb inflates tiny segments. -/
theorem claim_C7_counterexample :
    (0 : ℝ) < seg45.pitch_degrees ∧ seg45.pitch_degrees < 90 ∧
    (0 : ℝ) < seg45.true_area_sqft ∧
    (([seg45] : List (RoofSegment ℝ)).map (fun s => s.true_area_sqft)).sum = 0.65 ∧
    (compute_ras_yield [seg45] (0.65 : ℝ) "architectural").recovery_rate_pct = 110.8 ∧
    ¬ (compute_ras_yield [seg45] (0.65 : ℝ) "architectural").recovery_rate_pct ≤ 100 := by
  have hrate : (compute_ras_yield [seg45] (0.65 : ℝ)
      "architectural").recovery_rate_pct = 110.8 := by
    simp only [compute_ras_yield, ras_segment_yield, seg45, List.map_cons, List.map_nil,
      List.sum_cons, List.sum_nil, List.filter_cons, List.filter_nil, add_zero, zero_add]
    rw [tan_radians_45]
    norm_num
    rw [if_neg (by decide : ¬("granule" = "binder_oil")),
      if_neg (by decide : ¬("granule" = "mixed")),
      if_neg (by decide : ¬("granule" = "binder_oil")),
      if_neg (by decide : ¬("granule" = "mixed"))]
    rw [show pyRound ((13 : ℝ) / 32 / 8 * 10) = 1 from
        pyRound_eq_of_mem (by norm_num) (by norm_num),
      show pyRound ((13 : ℝ) / 20) = 1 from
        pyRound_eq_of_mem (by norm_num) (by norm_num),
      show pyRound ((39 : ℝ) / 400) = 0 from
        pyRound_eq_of_mem (by norm_num) (by norm_num)]
    rw [show ((((1 : ℤ) : ℝ) / 10 * 8 + ((1 : ℤ) : ℝ) + ((0 : ℤ) : ℝ)) / (13 / 8) * 1000) =
        ((9 : ℝ) / 5) / (13 / 8) * 1000 by norm_num]
    rw [show pyRound (((9 : ℝ) / 5) / (13 / 8) * 1000) = 1108 from
      pyRound_eq_of_mem (by norm_num) (by norm_num)]
    norm_num
  refine ⟨by norm_num [seg45], by norm_num [seg45], by norm_num [seg45],
    by simp [seg45], hrate, ?_⟩
  rw [hrate]
  norm_num

/-- C7 (amended): (1) for every non-empty segment list whose segments all
have at least 3 ft² of true area and whose total area equals the sum of the
segment areas, `recovery_rate_pct` lies in [0, 100] (the claimed bound can
fail for smaller segments because per-segment yields are rounded up); and
(2) for every non-empty list of segments of uniform exact 3:12 pitch
(rise = 3 ≤ 4) with positive areas, every segment is classified
`binder_oil` and `slope_distribution.low_pitch_pct` equals 100.0. -/
theorem claim_C7_amended :
    (∀ (segments : List (RoofSegment ℝ)) (sh : String),
      segments ≠ [] →
      (∀ s ∈ segments, 3 ≤ s.true_area_sqft) →
      0 ≤ (compute_ras_yield segments
          ((segments.map (fun s => s.true_area_sqft)).sum) sh).recovery_rate_pct ∧
      (compute_ras_yield segments
          ((segments.map (fun s => s.true_area_sqft)).sum) sh).recovery_rate_pct ≤ 100) ∧
    (∀ (segments : List (RoofSegment ℝ)) (ta : ℝ) (sh : String),
      segments ≠ [] →
      (∀ s ∈ segments, s.pitch_degrees = deg312 ∧ 0 < s.true_area_sqft) →
      (∀ y ∈ (compute_ras_yield segments ta sh).segments,
        y.recovery_class = "binder_oil") ∧
      (compute_ras_yield segments ta sh).slope_distribution.low_pitch_pct = 100) :=
  ⟨fun segments sh hne h3 => c7_part1 segments sh hne h3,
   fun segments ta sh hne hu => c7_part2 segments ta sh hne hu⟩

/-- Concrete segment for the C7 witness, part 1. -/
def segC7a : RoofSegment ℝ :=
  { name := "W1", footprint_area_sqft := 95, true_area_sqft := 100,
    true_area_sqm := 9.3, pitch_degrees := 10, pitch_ratio := "2.1:12",
    azimuth_degrees := 0, azimuth_direction := "N", plane_height_meters := none }

/-- Concrete uniform-3:12 segment for the C7 witness, part 2. -/
noncomputable def segC7b : RoofSegment ℝ :=
  { name := "W2", footprint_area_sqft := 97, true_area_sqft := 100,
    true_area_sqm := 9.3, pitch_degrees := deg312, pitch_ratio := "3.0:12",
    azimuth_degrees := 0, azimuth_direction := "N", plane_height_meters := none }

/-- C7 witness: the amended theorem applied at two concrete one-segment
roofs. -/
theorem claim_C7_witness :
    (([segC7a] : List (RoofSegment ℝ)) ≠ [] ∧
      (∀ s ∈ ([segC7a] : List (RoofSegment ℝ)), 3 ≤ s.true_area_sqft) ∧
      0 ≤ (compute_ras_yield [segC7a]
          (([segC7a].map (fun s => s.true_area_sqft)).sum)
          "architectural").recovery_rate_pct ∧
      (compute_ras_yield [segC7a]
          (([segC7a].map (fun s => s.true_area_sqft)).sum)
          "architectural").recovery_rate_pct ≤ 100) ∧
    (([segC7b] : List (RoofSegment ℝ)) ≠ [] ∧
      (∀ s ∈ ([segC7b] : List (RoofSegment ℝ)),
        s.pitch_degrees = deg312 ∧ 0 < s.true_area_sqft) ∧
      (∀ y ∈ (compute_ras_yield [segC7b] 100 "3-tab").segments,
        y.recovery_class = "binder_oil") ∧
      (compute_ras_yield [segC7b] 100 "3-tab").slope_distribution.low_pitch_pct = 100) := by
  have hne1 : ([segC7a] : List (RoofSegment ℝ)) ≠ [] := List.cons_ne_nil _ _
  have h31 : ∀ s ∈ ([segC7a] : List (RoofSegment ℝ)), 3 ≤ s.true_area_sqft := by
    intro s hs
    rw [List.mem_singleton] at hs
    rw [hs]
    norm_num [segC7a]
  have hne2 : ([segC7b] : List (RoofSegment ℝ)) ≠ [] := List.cons_ne_nil _ _
  have hu2 : ∀ s ∈ ([segC7b] : List (RoofSegment ℝ)),
      s.pitch_degrees = deg312 ∧ 0 < s.true_area_sqft := by
    intro s hs
    rw [List.mem_singleton] at hs
    rw [hs]
    exact ⟨rfl, by norm_num [segC7b]⟩
  have hp1 := (claim_C7_amended.1 [segC7a] "architectural" hne1 h31)
  have hp2 := (claim_C7_amended.2 [segC7b] 100 "3-tab" hne2 hu2)
  exact ⟨⟨hne1, h31, hp1.1, hp1.2⟩, ⟨hne2, hu2, hp2.1, hp2.2⟩⟩

/-! ### Claim C3 — pitch_to_ratio at 33.69 deg and the degenerate pitches -/

lemma pitch_ratio_tan_bound :
    (79.5 : ℝ) < 12 * Real.tan (radians 33.69) * 10 ∧
    12 * Real.tan (radians 33.69) * 10 < 80.5 := by
  have hpl : (3.141592 : ℝ) < Real.pi := Real.pi_gt_d6
  have hpu : Real.pi < 3.141593 := Real.pi_lt_d6
  set x := radians (33.69 : ℝ) with hxdef
  have hx1 : (0.58800130 : ℝ) < x := by
    rw [hxdef]; unfold radians; nlinarith
  have hx2 : x < 0.58800149 := by
    rw [hxdef]; unfold radians; nlinarith
  set h := x / 2 with hhdef
  have hh1 : (0.29400065 : ℝ) < h := by rw [hhdef]; linarith
  have hh2 : h < 0.29400075 := by rw [hhdef]; linarith
  have hh0 : (0 : ℝ) < h := by linarith
  have habs : |h| ≤ 1 := by rw [abs_of_pos hh0]; linarith
  have hsinb := abs_le.1 (Real.sin_bound habs)
  have hcosb := abs_le.1 (Real.cos_bound habs)
  rw [abs_of_pos hh0] at hsinb hcosb
  have h3u : h ^ 3 < 0.02541238 := by
    have hb := pow_le_pow_left₀ (le_of_lt hh0) (le_of_lt hh2) 3
    have hn : (0.29400075 : ℝ) ^ 3 < 0.02541238 := by norm_num
    linarith
  have h3l : (0.0254123 : ℝ) < h ^ 3 := by
    have hb := pow_le_pow_left₀ (by norm_num : (0 : ℝ) ≤ 0.29400065) (le_of_lt hh1) 3
    have hn : (0.0254123 : ℝ) < (0.29400065 : ℝ) ^ 3 := by norm_num
    linarith
  have h4u : h ^ 4 < 0.00747126 := by
    have hb := pow_le_pow_left₀ (le_of_lt hh0) (le_of_lt hh2) 4
    have hn : (0.29400075 : ℝ) ^ 4 < 0.00747126 := by norm_num
    linarith
  have h2u : h ^ 2 < 0.086436442 := by
    have hb := pow_le_pow_left₀ (le_of_lt hh0) (le_of_lt hh2) 2
    have hn : (0.29400075 : ℝ) ^ 2 < 0.086436442 := by norm_num
    linarith
  have h2l : (0.08643638 : ℝ) < h ^ 2 := by
    have hb := pow_le_pow_left₀ (by norm_num : (0 : ℝ) ≤ 0.29400065) (le_of_lt hh1) 2
    have hn : (0.08643638 : ℝ) < (0.29400065 : ℝ) ^ 2 := by norm_num
    linarith
  have hs1 : (0.28937 : ℝ) < Real.sin h := by
    have := hsinb.1
    linarith
  have hs2 : Real.sin h < 0.29016 := by
    have := hsinb.2
    linarith
  have hc1 : (0.95639 : ℝ) < Real.cos h := by
    have := hcosb.1
    linarith
  have hc2 : Real.cos h < 0.95718 := by
    have := hcosb.2
    linarith
  have hx22 : x = 2 * h := by rw [hhdef]; ring
  have hsx : Real.sin x = 2 * Real.sin h * Real.cos h := by
    rw [hx22, Real.sin_two_mul]
  have hcx : Real.cos x = 1 - 2 * Real.sin h ^ 2 := by
    rw [hx22, Real.cos_two_mul']
    have hpy := Real.sin_sq_add_cos_sq h
    linarith
  have hsx1 : (0.5535 : ℝ) < Real.sin x := by
    rw [hsx]
    nlinarith [mul_pos (sub_pos.2 hs1) (sub_pos.2 hc1)]
  have hsx2 : Real.sin x < 0.55548 := by
    rw [hsx]
    nlinarith [mul_pos (sub_pos.2 hs2) (sub_pos.2 hc2)]
  have hcx1 : (0.83161 : ℝ) < Real.cos x := by
    rw [hcx]
    nlinarith [mul_pos (sub_pos.2 hs2) (by linarith : (0 : ℝ) < Real.sin h + 0.29016)]
  have hcx2 : Real.cos x < 0.832531 := by
    rw [hcx]
    nlinarith [mul_pos (sub_pos.2 hs1) (by linarith : (0 : ℝ) < Real.sin h + 0.28937)]
  have hcxpos : (0 : ℝ) < Real.cos x := by linarith
  have htan : Real.tan x = Real.sin x / Real.cos x := Real.tan_eq_sin_div_cos x
  have hform : (12 : ℝ) * Real.tan x * 10 = 120 * Real.sin x / Real.cos x := by
    rw [htan]; ring
  constructor
  · rw [hform, lt_div_iff₀ hcxpos]
    nlinarith
  · rw [hform, div_lt_iff₀ hcxpos]
    nlinarith

lemma pitch_ratio_3369 : pitch_to_ratio 33.69 = "8.0:12" := by
  unfold pitch_to_ratio
  rw [if_neg (by norm_num)]
  rw [show pyRound (12 * Real.tan (radians 33.69) * 10) = 80 from
    pyRound_eq_of_mem (by have := pitch_ratio_tan_bound.1; push_cast; linarith)
      (by have := pitch_ratio_tan_bound.2; push_cast; linarith)]
  rfl


/-- C3 counterexample: `pitch_to_ratio(33.69°)` returns "8.0:12", not the
claimed "8:12" — the f-string prints the rounded float `8.0` with its
decimal digit. -/
theorem claim_C3_counterexample :
    pitch_to_ratio 33.69 = "8.0:12" ∧ pitch_to_ratio 33.69 ≠ "8:12" := by
  refine ⟨pitch_ratio_3369, ?_⟩
  rw [pitch_ratio_3369]
  decide

/-- C3 (amended): `pitch_to_ratio(33.69°)` returns "8.0:12" (the rise
12·tan(33.69°) ≈ 8.0 is printed with one decimal digit), and
`pitch_to_ratio` returns "0:12" at 0° and at 90°. -/
theorem claim_C3_amended :
    pitch_to_ratio 33.69 = "8.0:12" ∧
    pitch_to_ratio 0 = "0:12" ∧
    pitch_to_ratio 90 = "0:12" := by
  refine ⟨pitch_ratio_3369, ?_, ?_⟩
  · unfold pitch_to_ratio
    rw [if_pos (Or.inl le_rfl)]
  · unfold pitch_to_ratio
    rw [if_pos (Or.inr le_rfl)]

end RoofReport
